import Mathlib

/-! ## Python string primitives

Models of the Python str methods the scripts use, all operating on the
code-point sequence backing a string. -/

/-- Model of Python str.strip(): drops whitespace from both ends.
(Python strips all unicode whitespace; the filenames and cell values the
scripts handle only contain ASCII whitespace, which Char.isWhitespace
covers.) -/
def pyStrip (s : String) : String :=
  ⟨((s.data.dropWhile Char.isWhitespace).reverse.dropWhile Char.isWhitespace).reverse⟩

/-- Model of Python s.startswith(p): p is a prefix of s. -/
def pyStartswith (s p : String) : Bool :=
  p.data.isPrefixOf s.data

/-- Model of the Python slice s[n:]: drop the first n code points. -/
def pySlice (s : String) (n : Nat) : String :=
  ⟨s.data.drop n⟩

/-- Model of the Python slice s[:n]: take the first n code points. -/
def pyTake (n : Nat) (s : String) : String :=
  ⟨s.data.take n⟩

/-- Model of Python str.upper() for one character (ASCII case mapping;
the week patterns the scripts compare against are pure ASCII). -/
def pyToUpper (c : Char) : Char :=
  if 'a' ≤ c ∧ c ≤ 'z' then Char.ofNat (c.toNat - 32) else c

/-- Model of Python str.upper(). -/
def pyUpper (s : String) : String :=
  ⟨s.data.map pyToUpper⟩

/-- Model of the Python substring test (p in s): p occurs contiguously in s. -/
def listContains (hay sub : List Char) : Bool :=
  (List.range (hay.length + 1)).any (fun i => sub.isPrefixOf (hay.drop i))

/-! ## JGBFParser.handle_negative_values (jgbf_parser.py, lines 607-616)

Source:
  if not value or value == "-" or value == "": return ""
  value_str = str(value).strip()
  if value_str.startswith("▲"): return "-" + value_str[1:]
  return value_str
(not value is true exactly for the empty string, and str(value) is the
identity on the str argument.) -/

/-- Embedding of JGBFParser.handle_negative_values. -/
def handle_negative_values (value : String) : String :=
  if value = "" ∨ value = "-" then ""
  else
    let value_str := pyStrip value
    if pyStartswith value_str "▲" then "-" ++ pySlice value_str 1
    else value_str

/-! ## tittle3.py sheet writing and jgbf_parser.py sheet reading -/

/-- Worksheet produced by
TitleEnhancedConverter.copy_table_to_sheet_with_enhanced_titles
(tittle3.py, lines 360-366): the three metadata cells A1-A3 and the data
cells written from spreadsheet row 5 on. -/
structure EnhancedSheet where
  a1 : String
  a2 : String
  a3 : String
  cells : List (Nat × Nat × String)
deriving DecidableEq

/-- Embedding of copy_table_to_sheet_with_enhanced_titles: A1 is
"Title: " + main title, A2 is "Subtitle: " + subtitle, A3 is
"Table Title: " + table title, and data cells start at row 5, column 1,
each table cell text stripped. -/
def copy_table_to_sheet_with_enhanced_titles
    (main_title subtitle table_title : String)
    (grid : List (List String)) : EnhancedSheet :=
  { a1 := "Title: " ++ main_title
    a2 := "Subtitle: " ++ subtitle
    a3 := "Table Title: " ++ table_title
    cells := (List.enum grid).flatMap
      (fun rc => (List.enum rc.2).map
        (fun cc => (5 + rc.1, cc.1 + 1, pyStrip cc.2))) }

/-- Metadata record returned by JGBFParser.read_excel_sheet. -/
structure SheetMeta where
  title : String
  subtitle : String
  table_title : String
deriving DecidableEq

/-- Embedding of the metadata extraction of JGBFParser.read_excel_sheet
(jgbf_parser.py, lines 618-655): cell values default to "" when absent,
and the "Subtitle: " / "Table Title: " prefixes (10 and 13 code points)
are stripped when present. -/
def read_excel_sheet_meta (a1 a2 a3 : Option String) : SheetMeta :=
  let title := a1.getD ""
  let subtitle0 := a2.getD ""
  let subtitle :=
    if pyStartswith subtitle0 "Subtitle: " then pySlice subtitle0 10 else subtitle0
  let table_title0 := a3.getD ""
  let table_title :=
    if pyStartswith table_title0 "Table Title: " then pySlice table_title0 13
    else table_title0
  ⟨title, subtitle, table_title⟩

/-! ## Chunk splitting

ParallelChunkedConverter.parallel_chunked_convert (chunked_parallel.py,
lines 177-184) and FixedChunkedConverter.fixed_chunked_convert
(chunked_pdf_converter.py, lines 117-119) both run

  for chunk_start in range(0, total_pages, self.chunk_size):
      chunk_end = min(chunk_start + self.chunk_size, total_pages)
      chunk_number = (chunk_start // self.chunk_size) + 1
-/

/-- Model of the Python builtin range(0, stop, step) as the list of its
elements: element i is step * i and the length is the clamped ceiling
count from the documented range semantics, computed with Python floor
division (Int.fdiv). Python raises ValueError when step = 0, modelled by
none. -/
def pyRangeZ (stop step : Int) : Option (List Int) :=
  if step = 0 then none
  else if 0 < step then
    some ((List.range ((stop + step - 1).fdiv step).toNat).map (fun i : Nat => step * (i : Int)))
  else
    some ((List.range ((stop + step + 1).fdiv step).toNat).map (fun i : Nat => step * (i : Int)))

/-- One page-range chunk as built by the chunk-splitting loop:
start_page (inclusive), end_page (exclusive), and the 1-based sequence
number chunk_number. -/
structure ChunkSpec where
  start_page : Int
  end_page : Int
  chunk_number : Int
deriving DecidableEq

/-- Embedding of the chunk-splitting loop: for every chunk_start produced
by range(0, total_pages, chunk_size), the chunk
(chunk_start, min(chunk_start + chunk_size, total_pages),
chunk_start // chunk_size + 1), with Python floor division for //. -/
def chunk_specs (total_pages chunk_size : Int) : Option (List ChunkSpec) :=
  (pyRangeZ total_pages chunk_size).map
    (fun starts => starts.map
      (fun s => ⟨s, min (s + chunk_size) total_pages, s.fdiv chunk_size + 1⟩))

/-- Closed form of the i-th chunk for a positive chunk size c. -/
def chunkOf (total c : Int) (i : Nat) : ChunkSpec :=
  ⟨c * (i : Int), min (c * (i : Int) + c) total, (i : Int) + 1⟩

/-! ## DOCX document model and chunk merging

A python-docx Document is modelled by its body: a list of block elements,
each either a paragraph or a table (a grid of cell texts). add_page_break
appends a paragraph. doc.tables lists the table elements in body order. -/

/-- One element of a DOCX document body. -/
inductive BodyElt where
  | para : BodyElt
  | tbl : List (List String) → BodyElt
deriving DecidableEq

/-- Whether a body element is a table. -/
def isTbl : BodyElt → Bool
  | .para => false
  | .tbl _ => true

/-- A DOCX document, reduced to its body elements. -/
structure DocxDoc where
  body : List BodyElt
deriving DecidableEq

/-- Model of doc.tables: the table grids in body order. -/
def docTables (d : DocxDoc) : List (List (List String)) :=
  d.body.filterMap (fun e => match e with | .para => none | .tbl g => some g)

/-- Model of len(doc.tables). -/
def docTableCount (d : DocxDoc) : Nat :=
  d.body.countP isTbl

/-- Model of Document.add_page_break(): a page-break paragraph. -/
def page_break : BodyElt := .para

/-- Body of the document built by ParallelChunkedConverter.combine_chunks
(chunked_parallel.py, lines 284-335) on its happy path: the first chunk's
body, then for each remaining chunk a page break followed by all of that
chunk's body elements. -/
def merged_body (c0 : DocxDoc) (rest : List DocxDoc) : List BodyElt :=
  c0.body ++ rest.flatMap (fun ch => page_break :: ch.body)

/-- Embedding of ParallelChunkedConverter.combine_chunks. The boolean
copy_raises is the oracle for an exception inside the try block (real
causes: file I/O or element copying); on exception the routine falls back
to a copy of the first chunk. An empty chunk list yields None. -/
def combine_chunks (copy_raises : Bool) (chunk_docs : List DocxDoc) : Option DocxDoc :=
  match chunk_docs with
  | [] => none
  | c0 :: rest =>
    if copy_raises then some c0
    else some ⟨merged_body c0 rest⟩

/-- Body of the document built by the primary path of
FixedChunkedConverter.fixed_combine_chunks (chunked_pdf_converter.py,
lines 206-271): each chunk's body elements, with one page break between
consecutive chunks (none after the last). -/
def fixedMergeBody : List DocxDoc → List BodyElt
  | [] => []
  | [c] => c.body
  | c :: c' :: rest => c.body ++ page_break :: fixedMergeBody (c' :: rest)

/-- Body built by FixedChunkedConverter.alternative_combine_chunks on its
happy path: the first chunk's body, then for each remaining chunk a page
break, its paragraphs re-added as plain paragraphs, and its tables
re-created cell by cell (paragraphs first, then tables). -/
def alt_merged_body (c0 : DocxDoc) (rest : List DocxDoc) : List BodyElt :=
  c0.body ++ rest.flatMap (fun ch =>
    page_break :: (ch.body.filter (fun e => !(isTbl e)) ++ ch.body.filter isTbl))

/-- Embedding of FixedChunkedConverter.alternative_combine_chunks
(chunked_pdf_converter.py, lines 284-346). alt_raises is the oracle for
an exception inside its try block; on exception the first chunk's output
is used verbatim as the last resort. -/
def alternative_combine_chunks (alt_raises : Bool) (chunk_docs : List DocxDoc) :
    Option DocxDoc :=
  match chunk_docs with
  | [] => none
  | c0 :: rest =>
    if alt_raises then some c0
    else some ⟨alt_merged_body c0 rest⟩

/-- Embedding of FixedChunkedConverter.fixed_combine_chunks.
primary_raises is the oracle for an exception in the primary element-copy
loop; reload_count models the table count observed after saving the
combined document and re-loading it from disk (file I/O is outside the
model; a faithful round trip is reload_count = docTableCount). When the
primary path raises, or its verification count differs from the number of
tables added, the alternative combination is used. -/
def fixed_combine_chunks (primary_raises : Bool) (reload_count : DocxDoc → Nat)
    (alt_raises : Bool) (chunk_docs : List DocxDoc) : Option DocxDoc :=
  match chunk_docs with
  | [] => none
  | c0 :: rest =>
    if primary_raises then alternative_combine_chunks alt_raises (c0 :: rest)
    else
      let merged : DocxDoc := ⟨fixedMergeBody (c0 :: rest)⟩
      let total_tables_added := ((c0 :: rest).map docTableCount).sum
      if reload_count merged = total_tables_added then some merged
      else alternative_combine_chunks alt_raises (c0 :: rest)

/-! ## DOCX tables to Excel sheets

ParallelChunkedConverter.convert_docx_to_excel (chunked_parallel.py,
lines 337-408); TitleEnhancedConverter.convert_docx_to_excel
(tittle3.py, lines 338-341) computes page number and table name by the
same arithmetic. -/

/-- The fixed length-4 table name array shared by all converter variants. -/
def table_names : List String :=
  ["Table1_Main_Summary", "Table2_Brokerage_Breakdown",
   "Table3_Institutions_Breakdown", "Table4_Financial_Breakdown"]

/-- Worksheet produced by ParallelChunkedConverter.copy_table_to_sheet:
sheet title, the classification computed by the enumeration loop, the
metadata cells A1-A5 and the data cells written from spreadsheet row 7. -/
structure TableSheet where
  sheet_name : String
  page_number : Nat
  table_name : String
  a1 : String
  a2 : String
  a3 : String
  a4 : String
  a5 : String
  cells : List (Nat × Nat × String)
deriving DecidableEq

/-- Embedding of copy_table_to_sheet (chunked_parallel.py, lines
391-408): metadata lines A1-A5, then the stripped cell texts starting at
row 7, column 1. (len(table.columns) is the grid's row width, 0 for an
empty table.) -/
def copy_table_to_sheet (filename sheet_name : String) (page_number : Nat)
    (table_name : String) (grid : List (List String)) : TableSheet :=
  { sheet_name := sheet_name
    page_number := page_number
    table_name := table_name
    a1 := "Source: " ++ filename
    a2 := "Page: " ++ toString page_number
    a3 := "Table: " ++ table_name
    a4 := "Rows: " ++ toString grid.length
    a5 := "Columns: " ++ toString (match grid with | [] => 0 | r :: _ => r.length)
    cells := (List.enum grid).flatMap
      (fun rc => (List.enum rc.2).map
        (fun cc => (7 + rc.1, cc.1 + 1, pyStrip cc.2))) }

/-- Embedding of convert_docx_to_excel: when the document holds no table
the function returns early without creating a workbook (none); otherwise
table i is assigned page number i // 4 + 1 and the table name at index
i % 4, and its sheet is named P(page)_(name truncated to 20 chars). -/
def convert_docx_to_excel (filename : String) (doc : DocxDoc) :
    Option (List TableSheet) :=
  let tables := docTables doc
  if tables.length = 0 then none
  else some ((List.enum tables).map (fun it =>
    let table_index := it.1
    let page_number := table_index / 4 + 1
    let table_position := table_index % 4
    let table_name := table_names.getD table_position ""
    copy_table_to_sheet filename
      ("P" ++ toString page_number ++ "_" ++ pyTake 20 table_name)
      page_number table_name it.2))

/-! ## Parallel chunk conversion and re-assembly

convert_pdf_chunk_worker and ParallelChunkedConverter.parallel_chunked_convert
(chunked_parallel.py, lines 34-86 and 163-267). The external pdf2docx
conversion of one page range is an oracle conv : ChunkSpec → Except String
DocxDoc; a worker catches any exception and returns a result record with
success = False. Parallel completion order is modelled by quantifying over
every permutation of the submitted workers' results. -/

/-- Result record returned by convert_pdf_chunk_worker. -/
structure ChunkResult where
  chunk_number : Int
  success : Bool
  doc : Option DocxDoc
  table_count : Nat
  expected_tables : Int
  start_page : Int
  end_page : Int
deriving DecidableEq

/-- Embedding of convert_pdf_chunk_worker: on success the chunk document,
its table count and (end - start) * 4 expected tables; on exception a
failure record with success = False. -/
def convert_pdf_chunk_worker (conv : ChunkSpec → Except String DocxDoc)
    (spec : ChunkSpec) : ChunkResult :=
  match conv spec with
  | .ok d =>
    { chunk_number := spec.chunk_number, success := true, doc := some d
      table_count := docTableCount d
      expected_tables := (spec.end_page - spec.start_page) * 4
      start_page := spec.start_page, end_page := spec.end_page }
  | .error _ =>
    { chunk_number := spec.chunk_number, success := false, doc := none
      table_count := 0, expected_tables := 0
      start_page := spec.start_page, end_page := spec.end_page }

/-- Model of successful_chunks.sort(key=lambda x: x['chunk_number']):
Python's stable sort, as a merge sort on the chunk number. -/
def sortResults (rs : List ChunkResult) : List ChunkResult :=
  rs.mergeSort (fun a b => decide (a.chunk_number ≤ b.chunk_number))

/-- Embedding of the collect-and-merge tail of parallel_chunked_convert
(chunked_parallel.py, lines 224-263): filter the successful results,
sort them by chunk number, return None when none succeeded, otherwise
combine the successful chunk documents. -/
def parallel_chunked_convert_merge (copy_raises : Bool)
    (completed : List ChunkResult) : Option DocxDoc :=
  if (sortResults (completed.filter (fun r => r.success))).isEmpty then none
  else combine_chunks copy_raises
    ((sortResults (completed.filter (fun r => r.success))).filterMap (fun r => r.doc))

/-- Embedding of the sequential conversion loop of
FixedChunkedConverter.fixed_chunked_convert (chunked_pdf_converter.py,
lines 117-136): chunks are converted in order and any chunk failure
aborts with None. -/
def seqConvertChunks (conv : ChunkSpec → Except String DocxDoc) :
    List ChunkSpec → Option (List DocxDoc)
  | [] => some []
  | s :: rest =>
    match conv s with
    | .error _ => none
    | .ok d => (seqConvertChunks conv rest).map (fun ds => d :: ds)

/-- Embedding of FixedChunkedConverter.fixed_chunked_convert: split into
chunks, convert sequentially (aborting on the first failed chunk), then
combine with fixed_combine_chunks. A ValueError from range (chunk size 0)
is caught by the surrounding try and yields None. -/
def fixed_chunked_convert (conv : ChunkSpec → Except String DocxDoc)
    (total_pages chunk_size : Int) (primary_raises : Bool)
    (reload_count : DocxDoc → Nat) (alt_raises : Bool) : Option DocxDoc :=
  (chunk_specs total_pages chunk_size).bind (fun specs =>
    (seqConvertChunks conv specs).bind (fun docs =>
      fixed_combine_chunks primary_raises reload_count alt_raises docs))

/-- Conversion oracle for the failure-policy witness and counterexample:
the chunk starting at page 0 raises, every other chunk succeeds. -/
def cexConv : ChunkSpec → Except String DocxDoc :=
  fun s => if s.start_page = 0 then Except.error "boom" else Except.ok ⟨[]⟩

/-! ## JGBF output generation

JGBFParser.generate_output_file (jgbf_parser.py, lines 852-905) groups
the extracted data points into per-code time series (Python dicts,
modelled as insertion-ordered association lists), collects and sorts the
distinct dates, and writes one data row per date starting at spreadsheet
row 3, with one column per template code in fixed template order. -/

/-- Embedding of JGBFParser.get_template_columns (jgbf_parser.py, lines
79-530): the exact (code, description) column structure of the
JGBF_DATA template, in template order. -/
def get_template_columns : List (String × String) :=
  [("JGBF.TOTAL_PROPRIETARY_BROKERAGE.JGB10YEARFUTURES.TRADINGVALUE.PROPRIETARY.SALES.VALUE.W",
    "Trading by Type of Investors, JGB(10-year) Futures, Total, Proprietary ＆ Brokerage, Trading Value, Proprietary, Sales, Value"),
   ("JGBF.TOTAL_PROPRIETARY_BROKERAGE.JGB10YEARFUTURES.TRADINGVALUE.PROPRIETARY.SALES.BALANCE.W",
    "Trading by Type of Investors, JGB(10-year) Futures, Total, Proprietary ＆ Brokerage, Trading Value, Proprietary, Sales, Balance"),
   ("JGBF.TOTAL_PROPRIETARY_BROKERAGE.JGB10YEARFUTURES.TRADINGVALUE.PROPRIETARY.PURCHASES.VALUE.W",
    "Trading by Type of Investors, JGB(10-year) Futures, Total, Proprietary ＆ Brokerage, Trading Value, Proprietary, Purchases, Value"),
   ("JGBF.TOTAL_PROPRIETARY_BROKERAGE.JGB10YEARFUTURES.TRADINGVALUE.PROPRIETARY.PURCHASES.BALANCE.W",
    "Trading by Type of Investors, JGB(10-year) Futures, Total, Proprietary ＆ Brokerage, Trading Value, Proprietary, Purchases, Balance"),
   ("JGBF.TOTAL_PROPRIETARY_BROKERAGE.JGB10YEARFUTURES.TRADINGVALUE.BROKERAGE.SALES.VALUE.W",
    "Trading by Type of Investors, JGB(10-year) Futures, Total, Proprietary ＆ Brokerage, Trading Value, Brokerage, Sales, Value"),
   ("JGBF.TOTAL_PROPRIETARY_BROKERAGE.JGB10YEARFUTURES.TRADINGVALUE.BROKERAGE.SALES.BALANCE.W",
    "Trading by Type of Investors, JGB(10-year) Futures, Total, Proprietary ＆ Brokerage, Trading Value, Brokerage, Sales, Balance"),
   ("JGBF.TOTAL_PROPRIETARY_BROKERAGE.JGB10YEARFUTURES.TRADINGVALUE.BROKERAGE.PURCHASES.VALUE.W",
    "Trading by Type of Investors, JGB(10-year) Futures, Total, Proprietary ＆ Brokerage, Trading Value, Brokerage, Purchases, Value"),
   ("JGBF.TOTAL_PROPRIETARY_BROKERAGE.JGB10YEARFUTURES.TRADINGVALUE.BROKERAGE.PURCHASES.BALANCE.W",
    "Trading by Type of Investors, JGB(10-year) Futures, Total, Proprietary ＆ Brokerage, Trading Value, Brokerage, Purchases, Balance"),
   ("JGBF.TOTAL_PROPRIETARY_BROKERAGE.JGB10YEARFUTURES.TRADINGVALUE.TOTAL.SALES.VALUE.W",
    "Trading by Type of Investors, JGB(10-year) Futures, Total, Proprietary ＆ Brokerage, Trading Value, Total, Sales, Value"),
   ("JGBF.TOTAL_PROPRIETARY_BROKERAGE.JGB10YEARFUTURES.TRADINGVALUE.TOTAL.SALES.BALANCE.W",
    "Trading by Type of Investors, JGB(10-year) Futures, Total, Proprietary ＆ Brokerage, Trading Value, Total, Sales, Balance"),
   ("JGBF.TOTAL_PROPRIETARY_BROKERAGE.JGB10YEARFUTURES.TRADINGVALUE.TOTAL.PURCHASES.VALUE.W",
    "Trading by Type of Investors, JGB(10-year) Futures, Total, Proprietary ＆ Brokerage, Trading Value, Total, Purchases, Value"),
   ("JGBF.TOTAL_PROPRIETARY_BROKERAGE.JGB10YEARFUTURES.TRADINGVALUE.TOTAL.PURCHASES.BALANCE.W",
    "Trading by Type of Investors, JGB(10-year) Futures, Total, Proprietary ＆ Brokerage, Trading Value, Total, Purchases, Balance"),
   ("JGBF.BROKERAGE_BREAKDOWN.JGB10YEARFUTURES.TRADINGVALUE.INSTITUTIONS.SALES.VALUE.W",
    "Trading by Type of Investors, JGB(10-year) Futures, Breakdown of Brokerage, Trading Value, Institutions, Sales, Value"),
   ("JGBF.BROKERAGE_BREAKDOWN.JGB10YEARFUTURES.TRADINGVALUE.INSTITUTIONS.SALES.BALANCE.W",
    "Trading by Type of Investors, JGB(10-year) Futures, Breakdown of Brokerage, Trading Value, Institutions, Sales, Balance"),
   ("JGBF.BROKERAGE_BREAKDOWN.JGB10YEARFUTURES.TRADINGVALUE.INSTITUTIONS.PURCHASES.VALUE.W",
    "Trading by Type of Investors, JGB(10-year) Futures, Breakdown of Brokerage, Trading Value, Institutions, Purchases, Value"),
   ("JGBF.BROKERAGE_BREAKDOWN.JGB10YEARFUTURES.TRADINGVALUE.INSTITUTIONS.PURCHASES.BALANCE.W",
    "Trading by Type of Investors, JGB(10-year) Futures, Breakdown of Brokerage, Trading Value, Institutions, Purchases, Balance"),
   ("JGBF.BROKERAGE_BREAKDOWN.JGB10YEARFUTURES.TRADINGVALUE.INDIVIDUALS.SALES.VALUE.W",
    "Trading by Type of Investors, JGB(10-year) Futures, Breakdown of Brokerage, Trading Value, Individuals, Sales, Value"),
   ("JGBF.BROKERAGE_BREAKDOWN.JGB10YEARFUTURES.TRADINGVALUE.INDIVIDUALS.SALES.BALANCE.W",
    "Trading by Type of Investors, JGB(10-year) Futures, Breakdown of Brokerage, Trading Value, Individuals, Sales, Balance"),
   ("JGBF.BROKERAGE_BREAKDOWN.JGB10YEARFUTURES.TRADINGVALUE.INDIVIDUALS.PURCHASES.VALUE.W",
    "Trading by Type of Investors, JGB(10-year) Futures, Breakdown of Brokerage, Trading Value, Individuals, Purchases, Value"),
   ("JGBF.BROKERAGE_BREAKDOWN.JGB10YEARFUTURES.TRADINGVALUE.INDIVIDUALS.PURCHASES.BALANCE.W",
    "Trading by Type of Investors, JGB(10-year) Futures, Breakdown of Brokerage, Trading Value, Individuals, Purchases, Balance"),
   ("JGBF.BROKERAGE_BREAKDOWN.JGB10YEARFUTURES.TRADINGVALUE.FOREIGNERS.SALES.VALUE.W",
    "Trading by Type of Investors, JGB(10-year) Futures, Breakdown of Brokerage, Trading Value, Foreigners, Sales, Value"),
   ("JGBF.BROKERAGE_BREAKDOWN.JGB10YEARFUTURES.TRADINGVALUE.FOREIGNERS.SALES.BALANCE.W",
    "Trading by Type of Investors, JGB(10-year) Futures, Breakdown of Brokerage, Trading Value, Foreigners, Sales, Balance"),
   ("JGBF.BROKERAGE_BREAKDOWN.JGB10YEARFUTURES.TRADINGVALUE.FOREIGNERS.PURCHASES.VALUE.W",
    "Trading by Type of Investors, JGB(10-year) Futures, Breakdown of Brokerage, Trading Value, Foreigners, Purchases, Value"),
   ("JGBF.BROKERAGE_BREAKDOWN.JGB10YEARFUTURES.TRADINGVALUE.FOREIGNERS.PURCHASES.BALANCE.W",
    "Trading by Type of Investors, JGB(10-year) Futures, Breakdown of Brokerage, Trading Value, Foreigners, Purchases, Balance"),
   ("JGBF.BROKERAGE_BREAKDOWN.JGB10YEARFUTURES.TRADINGVALUE.SECURITIES_COS.SALES.VALUE.W",
    "Trading by Type of Investors, JGB(10-year) Futures, Breakdown of Brokerage, Trading Value, Securities Cos., Sales, Value"),
   ("JGBF.BROKERAGE_BREAKDOWN.JGB10YEARFUTURES.TRADINGVALUE.SECURITIES_COS.SALES.BALANCE.W",
    "Trading by Type of Investors, JGB(10-year) Futures, Breakdown of Brokerage, Trading Value, Securities Cos., Sales, Balance"),
   ("JGBF.BROKERAGE_BREAKDOWN.JGB10YEARFUTURES.TRADINGVALUE.SECURITIES_COS.PURCHASES.VALUE.W",
    "Trading by Type of Investors, JGB(10-year) Futures, Breakdown of Brokerage, Trading Value, Securities Cos., Purchases, Value"),
   ("JGBF.BROKERAGE_BREAKDOWN.JGB10YEARFUTURES.TRADINGVALUE.SECURITIES_COS.PURCHASES.BALANCE.W",
    "Trading by Type of Investors, JGB(10-year) Futures, Breakdown of Brokerage, Trading Value, Securities Cos., Purchases, Balance"),
   ("JGBF.TOTAL_PROPRIETARY_BROKERAGE.MINI10YEARJGBFUTURESCASHSETTLED.TRADINGVALUE.PROPRIETARY.SALES.VALUE.W",
    "Trading by Type of Investors, mini-10-year JGB Futures (Cash-Settled), Total, Proprietary ＆ Brokerage, Trading Value, Proprietary, Sales, Value"),
   ("JGBF.TOTAL_PROPRIETARY_BROKERAGE.MINI10YEARJGBFUTURESCASHSETTLED.TRADINGVALUE.PROPRIETARY.SALES.BALANCE.W",
    "Trading by Type of Investors, mini-10-year JGB Futures (Cash-Settled), Total, Proprietary ＆ Brokerage, Trading Value, Proprietary, Sales, Balance"),
   ("JGBF.TOTAL_PROPRIETARY_BROKERAGE.MINI10YEARJGBFUTURESCASHSETTLED.TRADINGVALUE.PROPRIETARY.PURCHASES.VALUE.W",
    "Trading by Type of Investors, mini-10-year JGB Futures (Cash-Settled), Total, Proprietary ＆ Brokerage, Trading Value, Proprietary, Purchases, Value"),
   ("JGBF.TOTAL_PROPRIETARY_BROKERAGE.MINI10YEARJGBFUTURESCASHSETTLED.TRADINGVALUE.PROPRIETARY.PURCHASES.BALANCE.W",
    "Trading by Type of Investors, mini-10-year JGB Futures (Cash-Settled), Total, Proprietary ＆ Brokerage, Trading Value, Proprietary, Purchases, Balance"),
   ("JGBF.TOTAL_PROPRIETARY_BROKERAGE.MINI10YEARJGBFUTURESCASHSETTLED.TRADINGVALUE.BROKERAGE.SALES.VALUE.W",
    "Trading by Type of Investors, mini-10-year JGB Futures (Cash-Settled), Total, Proprietary ＆ Brokerage, Trading Value, Brokerage, Sales, Value"),
   ("JGBF.TOTAL_PROPRIETARY_BROKERAGE.MINI10YEARJGBFUTURESCASHSETTLED.TRADINGVALUE.BROKERAGE.SALES.BALANCE.W",
    "Trading by Type of Investors, mini-10-year JGB Futures (Cash-Settled), Total, Proprietary ＆ Brokerage, Trading Value, Brokerage, Sales, Balance"),
   ("JGBF.TOTAL_PROPRIETARY_BROKERAGE.MINI10YEARJGBFUTURESCASHSETTLED.TRADINGVALUE.BROKERAGE.PURCHASES.VALUE.W",
    "Trading by Type of Investors, mini-10-year JGB Futures (Cash-Settled), Total, Proprietary ＆ Brokerage, Trading Value, Brokerage, Purchases, Value"),
   ("JGBF.TOTAL_PROPRIETARY_BROKERAGE.MINI10YEARJGBFUTURESCASHSETTLED.TRADINGVALUE.BROKERAGE.PURCHASES.BALANCE.W",
    "Trading by Type of Investors, mini-10-year JGB Futures (Cash-Settled), Total, Proprietary ＆ Brokerage, Trading Value, Brokerage, Purchases, Balance"),
   ("JGBF.TOTAL_PROPRIETARY_BROKERAGE.MINI10YEARJGBFUTURESCASHSETTLED.TRADINGVALUE.TOTAL.SALES.VALUE.W",
    "Trading by Type of Investors, mini-10-year JGB Futures (Cash-Settled), Total, Proprietary ＆ Brokerage, Trading Value, Total, Sales, Value"),
   ("JGBF.TOTAL_PROPRIETARY_BROKERAGE.MINI10YEARJGBFUTURESCASHSETTLED.TRADINGVALUE.TOTAL.SALES.BALANCE.W",
    "Trading by Type of Investors, mini-10-year JGB Futures (Cash-Settled), Total, Proprietary ＆ Brokerage, Trading Value, Total, Sales, Balance"),
   ("JGBF.TOTAL_PROPRIETARY_BROKERAGE.MINI10YEARJGBFUTURESCASHSETTLED.TRADINGVALUE.TOTAL.PURCHASES.VALUE.W",
    "Trading by Type of Investors, mini-10-year JGB Futures (Cash-Settled), Total, Proprietary ＆ Brokerage, Trading Value, Total, Purchases, Value"),
   ("JGBF.TOTAL_PROPRIETARY_BROKERAGE.MINI10YEARJGBFUTURESCASHSETTLED.TRADINGVALUE.TOTAL.PURCHASES.BALANCE.W",
    "Trading by Type of Investors, mini-10-year JGB Futures (Cash-Settled), Total, Proprietary ＆ Brokerage, Trading Value, Total, Purchases, Balance"),
   ("JGBF.BROKERAGE_BREAKDOWN.MINI10YEARJGBFUTURESCASHSETTLED.TRADINGVALUE.INSTITUTIONS.SALES.VALUE.W",
    "Trading by Type of Investors, mini-10-year JGB Futures (Cash-Settled), Breakdown of Brokerage, Trading Value, Institutions, Sales, Value"),
   ("JGBF.BROKERAGE_BREAKDOWN.MINI10YEARJGBFUTURESCASHSETTLED.TRADINGVALUE.INSTITUTIONS.SALES.BALANCE.W",
    "Trading by Type of Investors, mini-10-year JGB Futures (Cash-Settled), Breakdown of Brokerage, Trading Value, Institutions, Sales, Balance"),
   ("JGBF.BROKERAGE_BREAKDOWN.MINI10YEARJGBFUTURESCASHSETTLED.TRADINGVALUE.INSTITUTIONS.PURCHASES.VALUE.W",
    "Trading by Type of Investors, mini-10-year JGB Futures (Cash-Settled), Breakdown of Brokerage, Trading Value, Institutions, Purchases, Value"),
   ("JGBF.BROKERAGE_BREAKDOWN.MINI10YEARJGBFUTURESCASHSETTLED.TRADINGVALUE.INSTITUTIONS.PURCHASES.BALANCE.W",
    "Trading by Type of Investors, mini-10-year JGB Futures (Cash-Settled), Breakdown of Brokerage, Trading Value, Institutions, Purchases, Balance"),
   ("JGBF.BROKERAGE_BREAKDOWN.MINI10YEARJGBFUTURESCASHSETTLED.TRADINGVALUE.INDIVIDUALS.SALES.VALUE.W",
    "Trading by Type of Investors, mini-10-year JGB Futures (Cash-Settled), Breakdown of Brokerage, Trading Value, Individuals, Sales, Value"),
   ("JGBF.BROKERAGE_BREAKDOWN.MINI10YEARJGBFUTURESCASHSETTLED.TRADINGVALUE.INDIVIDUALS.SALES.BALANCE.W",
    "Trading by Type of Investors, mini-10-year JGB Futures (Cash-Settled), Breakdown of Brokerage, Trading Value, Individuals, Sales, Balance"),
   ("JGBF.BROKERAGE_BREAKDOWN.MINI10YEARJGBFUTURESCASHSETTLED.TRADINGVALUE.INDIVIDUALS.PURCHASES.VALUE.W",
    "Trading by Type of Investors, mini-10-year JGB Futures (Cash-Settled), Breakdown of Brokerage, Trading Value, Individuals, Purchases, Value"),
   ("JGBF.BROKERAGE_BREAKDOWN.MINI10YEARJGBFUTURESCASHSETTLED.TRADINGVALUE.INDIVIDUALS.PURCHASES.BALANCE.W",
    "Trading by Type of Investors, mini-10-year JGB Futures (Cash-Settled), Breakdown of Brokerage, Trading Value, Individuals, Purchases, Balance"),
   ("JGBF.BROKERAGE_BREAKDOWN.MINI10YEARJGBFUTURESCASHSETTLED.TRADINGVALUE.FOREIGNERS.SALES.VALUE.W",
    "Trading by Type of Investors, mini-10-year JGB Futures (Cash-Settled), Breakdown of Brokerage, Trading Value, Foreigners, Sales, Value"),
   ("JGBF.BROKERAGE_BREAKDOWN.MINI10YEARJGBFUTURESCASHSETTLED.TRADINGVALUE.FOREIGNERS.SALES.BALANCE.W",
    "Trading by Type of Investors, mini-10-year JGB Futures (Cash-Settled), Breakdown of Brokerage, Trading Value, Foreigners, Sales, Balance"),
   ("JGBF.BROKERAGE_BREAKDOWN.MINI10YEARJGBFUTURESCASHSETTLED.TRADINGVALUE.FOREIGNERS.PURCHASES.VALUE.W",
    "Trading by Type of Investors, mini-10-year JGB Futures (Cash-Settled), Breakdown of Brokerage, Trading Value, Foreigners, Purchases, Value"),
   ("JGBF.BROKERAGE_BREAKDOWN.MINI10YEARJGBFUTURESCASHSETTLED.TRADINGVALUE.FOREIGNERS.PURCHASES.BALANCE.W",
    "Trading by Type of Investors, mini-10-year JGB Futures (Cash-Settled), Breakdown of Brokerage, Trading Value, Foreigners, Purchases, Balance"),
   ("JGBF.BROKERAGE_BREAKDOWN.MINI10YEARJGBFUTURESCASHSETTLED.TRADINGVALUE.SECURITIES_COS.SALES.VALUE.W",
    "Trading by Type of Investors, mini-10-year JGB Futures (Cash-Settled), Breakdown of Brokerage, Trading Value, Securities Cos., Sales, Value"),
   ("JGBF.BROKERAGE_BREAKDOWN.MINI10YEARJGBFUTURESCASHSETTLED.TRADINGVALUE.SECURITIES_COS.SALES.BALANCE.W",
    "Trading by Type of Investors, mini-10-year JGB Futures (Cash-Settled), Breakdown of Brokerage, Trading Value, Securities Cos., Sales, Balance"),
   ("JGBF.BROKERAGE_BREAKDOWN.MINI10YEARJGBFUTURESCASHSETTLED.TRADINGVALUE.SECURITIES_COS.PURCHASES.VALUE.W",
    "Trading by Type of Investors, mini-10-year JGB Futures (Cash-Settled), Breakdown of Brokerage, Trading Value, Securities Cos., Purchases, Value"),
   ("JGBF.BROKERAGE_BREAKDOWN.MINI10YEARJGBFUTURESCASHSETTLED.TRADINGVALUE.SECURITIES_COS.PURCHASES.BALANCE.W",
    "Trading by Type of Investors, mini-10-year JGB Futures (Cash-Settled), Breakdown of Brokerage, Trading Value, Securities Cos., Purchases, Balance"),
   ("JGBF.TOTAL_PROPRIETARY_BROKERAGE.MINI20YEARJGBFUTURES.TRADINGVALUE.PROPRIETARY.SALES.VALUE.W",
    "Trading by Type of Investors, mini-20-year JGB Futures, Total, Proprietary ＆ Brokerage, Trading Value, Proprietary, Sales, Value"),
   ("JGBF.TOTAL_PROPRIETARY_BROKERAGE.MINI20YEARJGBFUTURES.TRADINGVALUE.PROPRIETARY.SALES.BALANCE.W",
    "Trading by Type of Investors, mini-20-year JGB Futures, Total, Proprietary ＆ Brokerage, Trading Value, Proprietary, Sales, Balance"),
   ("JGBF.TOTAL_PROPRIETARY_BROKERAGE.MINI20YEARJGBFUTURES.TRADINGVALUE.PROPRIETARY.PURCHASES.VALUE.W",
    "Trading by Type of Investors, mini-20-year JGB Futures, Total, Proprietary ＆ Brokerage, Trading Value, Proprietary, Purchases, Value"),
   ("JGBF.TOTAL_PROPRIETARY_BROKERAGE.MINI20YEARJGBFUTURES.TRADINGVALUE.PROPRIETARY.PURCHASES.BALANCE.W",
    "Trading by Type of Investors, mini-20-year JGB Futures, Total, Proprietary ＆ Brokerage, Trading Value, Proprietary, Purchases, Balance"),
   ("JGBF.TOTAL_PROPRIETARY_BROKERAGE.MINI20YEARJGBFUTURES.TRADINGVALUE.BROKERAGE.SALES.VALUE.W",
    "Trading by Type of Investors, mini-20-year JGB Futures, Total, Proprietary ＆ Brokerage, Trading Value, Brokerage, Sales, Value"),
   ("JGBF.TOTAL_PROPRIETARY_BROKERAGE.MINI20YEARJGBFUTURES.TRADINGVALUE.BROKERAGE.SALES.BALANCE.W",
    "Trading by Type of Investors, mini-20-year JGB Futures, Total, Proprietary ＆ Brokerage, Trading Value, Brokerage, Sales, Balance"),
   ("JGBF.TOTAL_PROPRIETARY_BROKERAGE.MINI20YEARJGBFUTURES.TRADINGVALUE.BROKERAGE.PURCHASES.VALUE.W",
    "Trading by Type of Investors, mini-20-year JGB Futures, Total, Proprietary ＆ Brokerage, Trading Value, Brokerage, Purchases, Value"),
   ("JGBF.TOTAL_PROPRIETARY_BROKERAGE.MINI20YEARJGBFUTURES.TRADINGVALUE.BROKERAGE.PURCHASES.BALANCE.W",
    "Trading by Type of Investors, mini-20-year JGB Futures, Total, Proprietary ＆ Brokerage, Trading Value, Brokerage, Purchases, Balance"),
   ("JGBF.TOTAL_PROPRIETARY_BROKERAGE.MINI20YEARJGBFUTURES.TRADINGVALUE.TOTAL.SALES.VALUE.W",
    "Trading by Type of Investors, mini-20-year JGB Futures, Total, Proprietary ＆ Brokerage, Trading Value, Total, Sales, Value"),
   ("JGBF.TOTAL_PROPRIETARY_BROKERAGE.MINI20YEARJGBFUTURES.TRADINGVALUE.TOTAL.SALES.BALANCE.W",
    "Trading by Type of Investors, mini-20-year JGB Futures, Total, Proprietary ＆ Brokerage, Trading Value, Total, Sales, Balance"),
   ("JGBF.TOTAL_PROPRIETARY_BROKERAGE.MINI20YEARJGBFUTURES.TRADINGVALUE.TOTAL.PURCHASES.VALUE.W",
    "Trading by Type of Investors, mini-20-year JGB Futures, Total, Proprietary ＆ Brokerage, Trading Value, Total, Purchases, Value"),
   ("JGBF.TOTAL_PROPRIETARY_BROKERAGE.MINI20YEARJGBFUTURES.TRADINGVALUE.TOTAL.PURCHASES.BALANCE.W",
    "Trading by Type of Investors, mini-20-year JGB Futures, Total, Proprietary ＆ Brokerage, Trading Value, Total, Purchases, Balance"),
   ("JGBF.BROKERAGE_BREAKDOWN.MINI20YEARJGBFUTURES.TRADINGVALUE.INSTITUTIONS.SALES.VALUE.W",
    "Trading by Type of Investors, mini-20-year JGB Futures, Breakdown of Brokerage, Trading Value, Institutions, Sales, Value"),
   ("JGBF.BROKERAGE_BREAKDOWN.MINI20YEARJGBFUTURES.TRADINGVALUE.INSTITUTIONS.SALES.BALANCE.W",
    "Trading by Type of Investors, mini-20-year JGB Futures, Breakdown of Brokerage, Trading Value, Institutions, Sales, Balance"),
   ("JGBF.BROKERAGE_BREAKDOWN.MINI20YEARJGBFUTURES.TRADINGVALUE.INSTITUTIONS.PURCHASES.VALUE.W",
    "Trading by Type of Investors, mini-20-year JGB Futures, Breakdown of Brokerage, Trading Value, Institutions, Purchases, Value"),
   ("JGBF.BROKERAGE_BREAKDOWN.MINI20YEARJGBFUTURES.TRADINGVALUE.INSTITUTIONS.PURCHASES.BALANCE.W",
    "Trading by Type of Investors, mini-20-year JGB Futures, Breakdown of Brokerage, Trading Value, Institutions, Purchases, Balance"),
   ("JGBF.BROKERAGE_BREAKDOWN.MINI20YEARJGBFUTURES.TRADINGVALUE.INDIVIDUALS.SALES.VALUE.W",
    "Trading by Type of Investors, mini-20-year JGB Futures, Breakdown of Brokerage, Trading Value, Individuals, Sales, Value"),
   ("JGBF.BROKERAGE_BREAKDOWN.MINI20YEARJGBFUTURES.TRADINGVALUE.INDIVIDUALS.SALES.BALANCE.W",
    "Trading by Type of Investors, mini-20-year JGB Futures, Breakdown of Brokerage, Trading Value, Individuals, Sales, Balance"),
   ("JGBF.BROKERAGE_BREAKDOWN.MINI20YEARJGBFUTURES.TRADINGVALUE.INDIVIDUALS.PURCHASES.VALUE.W",
    "Trading by Type of Investors, mini-20-year JGB Futures, Breakdown of Brokerage, Trading Value, Individuals, Purchases, Value"),
   ("JGBF.BROKERAGE_BREAKDOWN.MINI20YEARJGBFUTURES.TRADINGVALUE.INDIVIDUALS.PURCHASES.BALANCE.W",
    "Trading by Type of Investors, mini-20-year JGB Futures, Breakdown of Brokerage, Trading Value, Individuals, Purchases, Balance"),
   ("JGBF.BROKERAGE_BREAKDOWN.MINI20YEARJGBFUTURES.TRADINGVALUE.FOREIGNERS.SALES.VALUE.W",
    "Trading by Type of Investors, mini-20-year JGB Futures, Breakdown of Brokerage, Trading Value, Foreigners, Sales, Value"),
   ("JGBF.BROKERAGE_BREAKDOWN.MINI20YEARJGBFUTURES.TRADINGVALUE.FOREIGNERS.SALES.BALANCE.W",
    "Trading by Type of Investors, mini-20-year JGB Futures, Breakdown of Brokerage, Trading Value, Foreigners, Sales, Balance"),
   ("JGBF.BROKERAGE_BREAKDOWN.MINI20YEARJGBFUTURES.TRADINGVALUE.FOREIGNERS.PURCHASES.VALUE.W",
    "Trading by Type of Investors, mini-20-year JGB Futures, Breakdown of Brokerage, Trading Value, Foreigners, Purchases, Value"),
   ("JGBF.BROKERAGE_BREAKDOWN.MINI20YEARJGBFUTURES.TRADINGVALUE.FOREIGNERS.PURCHASES.BALANCE.W",
    "Trading by Type of Investors, mini-20-year JGB Futures, Breakdown of Brokerage, Trading Value, Foreigners, Purchases, Balance"),
   ("JGBF.BROKERAGE_BREAKDOWN.MINI20YEARJGBFUTURES.TRADINGVALUE.SECURITIES_COS.SALES.VALUE.W",
    "Trading by Type of Investors, mini-20-year JGB Futures, Breakdown of Brokerage, Trading Value, Securities Cos., Sales, Value"),
   ("JGBF.BROKERAGE_BREAKDOWN.MINI20YEARJGBFUTURES.TRADINGVALUE.SECURITIES_COS.SALES.BALANCE.W",
    "Trading by Type of Investors, mini-20-year JGB Futures, Breakdown of Brokerage, Trading Value, Securities Cos., Sales, Balance"),
   ("JGBF.BROKERAGE_BREAKDOWN.MINI20YEARJGBFUTURES.TRADINGVALUE.SECURITIES_COS.PURCHASES.VALUE.W",
    "Trading by Type of Investors, mini-20-year JGB Futures, Breakdown of Brokerage, Trading Value, Securities Cos., Purchases, Value"),
   ("JGBF.BROKERAGE_BREAKDOWN.MINI20YEARJGBFUTURES.TRADINGVALUE.SECURITIES_COS.PURCHASES.BALANCE.W",
    "Trading by Type of Investors, mini-20-year JGB Futures, Breakdown of Brokerage, Trading Value, Securities Cos., Purchases, Balance"),
   ("JGBF.TOTAL_PROPRIETARY_BROKERAGE.3MONTHTONAFUTURES.TRADINGVALUE.PROPRIETARY.SALES.VALUE.W",
    "Trading by Type of Investors, 3-Month TONA Futures, Total, Proprietary ＆ Brokerage, Trading Value, Proprietary, Sales, Value"),
   ("JGBF.TOTAL_PROPRIETARY_BROKERAGE.3MONTHTONAFUTURES.TRADINGVALUE.PROPRIETARY.SALES.BALANCE.W",
    "Trading by Type of Investors, 3-Month TONA Futures, Total, Proprietary ＆ Brokerage, Trading Value, Proprietary, Sales, Balance"),
   ("JGBF.TOTAL_PROPRIETARY_BROKERAGE.3MONTHTONAFUTURES.TRADINGVALUE.PROPRIETARY.PURCHASES.VALUE.W",
    "Trading by Type of Investors, 3-Month TONA Futures, Total, Proprietary ＆ Brokerage, Trading Value, Proprietary, Purchases, Value"),
   ("JGBF.TOTAL_PROPRIETARY_BROKERAGE.3MONTHTONAFUTURES.TRADINGVALUE.PROPRIETARY.PURCHASES.BALANCE.W",
    "Trading by Type of Investors, 3-Month TONA Futures, Total, Proprietary ＆ Brokerage, Trading Value, Proprietary, Purchases, Balance"),
   ("JGBF.TOTAL_PROPRIETARY_BROKERAGE.3MONTHTONAFUTURES.TRADINGVALUE.BROKERAGE.SALES.VALUE.W",
    "Trading by Type of Investors, 3-Month TONA Futures, Total, Proprietary ＆ Brokerage, Trading Value, Brokerage, Sales, Value"),
   ("JGBF.TOTAL_PROPRIETARY_BROKERAGE.3MONTHTONAFUTURES.TRADINGVALUE.BROKERAGE.SALES.BALANCE.W",
    "Trading by Type of Investors, 3-Month TONA Futures, Total, Proprietary ＆ Brokerage, Trading Value, Brokerage, Sales, Balance"),
   ("JGBF.TOTAL_PROPRIETARY_BROKERAGE.3MONTHTONAFUTURES.TRADINGVALUE.BROKERAGE.PURCHASES.VALUE.W",
    "Trading by Type of Investors, 3-Month TONA Futures, Total, Proprietary ＆ Brokerage, Trading Value, Brokerage, Purchases, Value"),
   ("JGBF.TOTAL_PROPRIETARY_BROKERAGE.3MONTHTONAFUTURES.TRADINGVALUE.BROKERAGE.PURCHASES.BALANCE.W",
    "Trading by Type of Investors, 3-Month TONA Futures, Total, Proprietary ＆ Brokerage, Trading Value, Brokerage, Purchases, Balance"),
   ("JGBF.TOTAL_PROPRIETARY_BROKERAGE.3MONTHTONAFUTURES.TRADINGVALUE.TOTAL.SALES.VALUE.W",
    "Trading by Type of Investors, 3-Month TONA Futures, Total, Proprietary ＆ Brokerage, Trading Value, Total, Sales, Value"),
   ("JGBF.TOTAL_PROPRIETARY_BROKERAGE.3MONTHTONAFUTURES.TRADINGVALUE.TOTAL.SALES.BALANCE.W",
    "Trading by Type of Investors, 3-Month TONA Futures, Total, Proprietary ＆ Brokerage, Trading Value, Total, Sales, Balance"),
   ("JGBF.TOTAL_PROPRIETARY_BROKERAGE.3MONTHTONAFUTURES.TRADINGVALUE.TOTAL.PURCHASES.VALUE.W",
    "Trading by Type of Investors, 3-Month TONA Futures, Total, Proprietary ＆ Brokerage, Trading Value, Total, Purchases, Value"),
   ("JGBF.TOTAL_PROPRIETARY_BROKERAGE.3MONTHTONAFUTURES.TRADINGVALUE.TOTAL.PURCHASES.BALANCE.W",
    "Trading by Type of Investors, 3-Month TONA Futures, Total, Proprietary ＆ Brokerage, Trading Value, Total, Purchases, Balance"),
   ("JGBF.BROKERAGE_BREAKDOWN.3MONTHTONAFUTURES.TRADINGVALUE.INSTITUTIONS.SALES.VALUE.W",
    "Trading by Type of Investors, 3-Month TONA Futures, Breakdown of Brokerage, Trading Value, Institutions, Sales, Value"),
   ("JGBF.BROKERAGE_BREAKDOWN.3MONTHTONAFUTURES.TRADINGVALUE.INSTITUTIONS.SALES.BALANCE.W",
    "Trading by Type of Investors, 3-Month TONA Futures, Breakdown of Brokerage, Trading Value, Institutions, Sales, Balance"),
   ("JGBF.BROKERAGE_BREAKDOWN.3MONTHTONAFUTURES.TRADINGVALUE.INSTITUTIONS.PURCHASES.VALUE.W",
    "Trading by Type of Investors, 3-Month TONA Futures, Breakdown of Brokerage, Trading Value, Institutions, Purchases, Value"),
   ("JGBF.BROKERAGE_BREAKDOWN.3MONTHTONAFUTURES.TRADINGVALUE.INSTITUTIONS.PURCHASES.BALANCE.W",
    "Trading by Type of Investors, 3-Month TONA Futures, Breakdown of Brokerage, Trading Value, Institutions, Purchases, Balance"),
   ("JGBF.BROKERAGE_BREAKDOWN.3MONTHTONAFUTURES.TRADINGVALUE.INDIVIDUALS.SALES.VALUE.W",
    "Trading by Type of Investors, 3-Month TONA Futures, Breakdown of Brokerage, Trading Value, Individuals, Sales, Value"),
   ("JGBF.BROKERAGE_BREAKDOWN.3MONTHTONAFUTURES.TRADINGVALUE.INDIVIDUALS.SALES.BALANCE.W",
    "Trading by Type of Investors, 3-Month TONA Futures, Breakdown of Brokerage, Trading Value, Individuals, Sales, Balance"),
   ("JGBF.BROKERAGE_BREAKDOWN.3MONTHTONAFUTURES.TRADINGVALUE.INDIVIDUALS.PURCHASES.VALUE.W",
    "Trading by Type of Investors, 3-Month TONA Futures, Breakdown of Brokerage, Trading Value, Individuals, Purchases, Value"),
   ("JGBF.BROKERAGE_BREAKDOWN.3MONTHTONAFUTURES.TRADINGVALUE.INDIVIDUALS.PURCHASES.BALANCE.W",
    "Trading by Type of Investors, 3-Month TONA Futures, Breakdown of Brokerage, Trading Value, Individuals, Purchases, Balance"),
   ("JGBF.BROKERAGE_BREAKDOWN.3MONTHTONAFUTURES.TRADINGVALUE.FOREIGNERS.SALES.VALUE.W",
    "Trading by Type of Investors, 3-Month TONA Futures, Breakdown of Brokerage, Trading Value, Foreigners, Sales, Value"),
   ("JGBF.BROKERAGE_BREAKDOWN.3MONTHTONAFUTURES.TRADINGVALUE.FOREIGNERS.SALES.BALANCE.W",
    "Trading by Type of Investors, 3-Month TONA Futures, Breakdown of Brokerage, Trading Value, Foreigners, Sales, Balance"),
   ("JGBF.BROKERAGE_BREAKDOWN.3MONTHTONAFUTURES.TRADINGVALUE.FOREIGNERS.PURCHASES.VALUE.W",
    "Trading by Type of Investors, 3-Month TONA Futures, Breakdown of Brokerage, Trading Value, Foreigners, Purchases, Value"),
   ("JGBF.BROKERAGE_BREAKDOWN.3MONTHTONAFUTURES.TRADINGVALUE.FOREIGNERS.PURCHASES.BALANCE.W",
    "Trading by Type of Investors, 3-Month TONA Futures, Breakdown of Brokerage, Trading Value, Foreigners, Purchases, Balance"),
   ("JGBF.BROKERAGE_BREAKDOWN.3MONTHTONAFUTURES.TRADINGVALUE.SECURITIES_COS.SALES.VALUE.W",
    "Trading by Type of Investors, 3-Month TONA Futures, Breakdown of Brokerage, Trading Value, Securities Cos., Sales, Value"),
   ("JGBF.BROKERAGE_BREAKDOWN.3MONTHTONAFUTURES.TRADINGVALUE.SECURITIES_COS.SALES.BALANCE.W",
    "Trading by Type of Investors, 3-Month TONA Futures, Breakdown of Brokerage, Trading Value, Securities Cos., Sales, Balance"),
   ("JGBF.BROKERAGE_BREAKDOWN.3MONTHTONAFUTURES.TRADINGVALUE.SECURITIES_COS.PURCHASES.VALUE.W",
    "Trading by Type of Investors, 3-Month TONA Futures, Breakdown of Brokerage, Trading Value, Securities Cos., Purchases, Value"),
   ("JGBF.BROKERAGE_BREAKDOWN.3MONTHTONAFUTURES.TRADINGVALUE.SECURITIES_COS.PURCHASES.BALANCE.W",
    "Trading by Type of Investors, 3-Month TONA Futures, Breakdown of Brokerage, Trading Value, Securities Cos., Purchases, Balance")]

/-- One extracted data point: time-series code, description, date bucket
and value, as assembled by the table parsers. -/
structure DataItem where
  code : String
  description : String
  date : String
  value : String
deriving DecidableEq

/-- Per-code grouped series: the description of the first data point seen
and the insertion-ordered date-to-value dict. -/
structure SeriesInfo where
  description : String
  data_points : List (String × String)
deriving DecidableEq

/-- Model of a Python dict item assignment d[k] = v on an
insertion-ordered association list: an existing key keeps its position,
a new key is appended. -/
def dictInsert (ps : List (String × String)) (k v : String) : List (String × String) :=
  match ps with
  | [] => [(k, v)]
  | (k', v') :: rest => if k' = k then (k', v) :: rest else (k', v') :: dictInsert rest k v

/-- One step of the grouping loop of generate_output_file: create the
code's series on first sight (capturing its description), then assign
data_points[date] = value. -/
def addItem (m : List (String × SeriesInfo)) (it : DataItem) : List (String × SeriesInfo) :=
  match m with
  | [] => [(it.code, ⟨it.description, [(it.date, it.value)]⟩)]
  | (c, si) :: rest =>
    if c = it.code then
      (c, ⟨si.description, dictInsert si.data_points it.date it.value⟩) :: rest
    else (c, si) :: addItem rest it

/-- The grouping loop of generate_output_file over all data points. -/
def buildTimeSeries (l : List DataItem) : List (String × SeriesInfo) :=
  l.foldl addItem []

/-- Dict lookup of a code in the grouped series. -/
def lookupCode (m : List (String × SeriesInfo)) (k : String) : Option SeriesInfo :=
  match m with
  | [] => none
  | (c, si) :: rest => if c = k then some si else lookupCode rest k

/-- Dict lookup of a date in a series' data points. -/
def lookupDate (ps : List (String × String)) (k : String) : Option String :=
  match ps with
  | [] => none
  | (d, v) :: rest => if d = k then some v else lookupDate rest k

/-- The optional value stored for (code, date) in the grouped series. -/
def optValue (m : List (String × SeriesInfo)) (code date : String) : Option String :=
  (lookupCode m code).bind (fun si => lookupDate si.data_points date)

/-- Model of the cell written for one (template code, date) pair:
time_series_data[code]['data_points'].get(date, "") when the code has
data, "" otherwise. -/
def cellValue (m : List (String × SeriesInfo)) (code date : String) : String :=
  match lookupCode m code with
  | some si => (lookupDate si.data_points date).getD ""
  | none => ""

/-- All date keys occurring in the grouped series (the union the code
collects into the all_dates set). -/
def seriesDates (m : List (String × SeriesInfo)) : List String :=
  (m.map (fun p => p.2.data_points.map (fun q => q.1))).flatten

/-- Model of sorted(list(all_dates)): the distinct dates in ascending
lexicographic order. -/
def sortedDatesOf (m : List (String × SeriesInfo)) : List String :=
  (seriesDates m).dedup.mergeSort (fun a b => decide (a ≤ b))

/-- The JGBF_DATA worksheet produced by generate_output_file: the two
header rows and the data rows (row index, date, cell values per template
column). -/
structure JGBFOutput where
  header_codes : List String
  header_descriptions : List String
  rows : List (Nat × String × List String)
deriving DecidableEq

/-- Embedding of generate_output_file: None on empty data (the function
returns without writing a file); otherwise header rows from the template
and one data row per distinct date, starting at spreadsheet row 3. -/
def generate_output_file (all_data : List DataItem) : Option JGBFOutput :=
  if all_data.isEmpty then none
  else
    some
      { header_codes := get_template_columns.map (fun col => col.1)
        header_descriptions := get_template_columns.map (fun col => col.2)
        rows := (List.enumFrom 3 (sortedDatesOf (buildTimeSeries all_data))).map
          (fun rd => (rd.1, rd.2,
            get_template_columns.map
              (fun col => cellValue (buildTimeSeries all_data) col.1 rd.2))) }

/-- Specification-side value for (code, date): the value of the last data
point in input order with that code and date, or "" if none exists. -/
def lastValue (l : List DataItem) (code date : String) : String :=
  ((l.reverse.find? (fun it => it.code == code && it.date == date)).map
    (fun it => it.value)).getD ""

/-! ## JGBFParser.extract_date_from_filename (jgbf_parser.py, lines 583-605)

The method uppercases the filename, checks the week_mapping patterns for
substring containment in insertion order, otherwise searches for the
first run of 8 digits (the regex (\d{8})), parses it with
datetime.strptime("%Y%m%d") and formats the calendar year with the ISO
week number from date.isocalendar(); on any failure it returns the
default "2025-01". The Gregorian calendar and ISO week arithmetic below
follow CPython's datetime module. -/

/-- The week_mapping dict of JGBFParser, in insertion order. -/
def week_mapping : List (String × String) :=
  [("MARCH WEEK 1", "2025-09"), ("MARCH WEEK 2", "2025-10"),
   ("MARCH WEEK 3", "2025-11"), ("MARCH WEEK 4", "2025-12")]

/-- Model of re.search of the pattern of 8 consecutive digits: the
leftmost run of 8 digit characters, if any. -/
def findDigits8 (cs : List Char) : Option (List Char) :=
  ((List.range cs.length).find? (fun i =>
    decide (((cs.drop i).take 8).length = 8) &&
      ((cs.drop i).take 8).all Char.isDigit)).map
    (fun i => (cs.drop i).take 8)

/-- Numeric value of a digit string. -/
def natOfDigits (cs : List Char) : Nat :=
  cs.foldl (fun n c => 10 * n + (c.toNat - 48)) 0

/-- Gregorian leap year test. -/
def isLeap (y : Int) : Bool :=
  (y % 4 == 0 && y % 100 != 0) || y % 400 == 0

/-- Days in a month of a Gregorian year. -/
def days_in_month (y : Int) (m : Nat) : Nat :=
  if m = 2 then (if isLeap y then 29 else 28)
  else if m = 4 ∨ m = 6 ∨ m = 9 ∨ m = 11 then 30
  else 31

/-- Days before January 1 of a year, counted from the proleptic Gregorian
epoch (CPython _days_before_year; Python floor division is Int.fdiv). -/
def days_before_year (y : Int) : Int :=
  365 * (y - 1) + (y - 1).fdiv 4 - (y - 1).fdiv 100 + (y - 1).fdiv 400

/-- Days in a year before the first of a month (CPython
_days_before_month). -/
def days_before_month (y : Int) (m : Nat) : Nat :=
  ((List.range (m - 1)).map (fun i => days_in_month y (i + 1))).sum

/-- Proleptic Gregorian ordinal of a date, day 1 being 0001-01-01
(CPython _ymd2ord). -/
def ymd2ord (y : Int) (m d : Nat) : Int :=
  days_before_year y + days_before_month y m + d

/-- Ordinal of the Monday starting ISO week 1 of a year (CPython
_isoweek1monday). -/
def isoweek1monday (year : Int) : Int :=
  let firstday := ymd2ord year 1 1
  let firstweekday := (firstday + 6) % 7
  let week1monday := firstday - firstweekday
  if firstweekday > 3 then week1monday + 7 else week1monday

/-- ISO week number of a date, date.isocalendar()[1] in CPython. -/
def isoWeekNumber (y : Int) (m d : Nat) : Int :=
  let today := ymd2ord y m d
  let week := (today - isoweek1monday y).fdiv 7
  if week < 0 then (today - isoweek1monday (y - 1)).fdiv 7 + 1
  else if week ≥ 52 ∧ today ≥ isoweek1monday (y + 1) then 1
  else week + 1

/-- The f-string week format 02d for the occurring range 1..53. -/
def pad2 (w : Int) : String :=
  if w < 10 then "0" ++ toString w else toString w

/-- Model of datetime.strptime(date_str, "%Y%m%d") on an 8-digit string:
the (year, month, day) triple when it is a valid date of years 1-9999,
none when strptime raises ValueError. -/
def tryParseYMD (ds : List Char) : Option (Nat × Nat × Nat) :=
  let y := natOfDigits (ds.take 4)
  let m := natOfDigits ((ds.drop 4).take 2)
  let d := natOfDigits (ds.drop 6)
  if 1 ≤ y ∧ 1 ≤ m ∧ m ≤ 12 ∧ 1 ≤ d ∧ d ≤ days_in_month (y : Int) m then
    some (y, m, d)
  else none

/-- The date string built from a matched 8-digit run: calendar year and
ISO week on a valid date, the default "2025-01" when strptime raises. -/
def dateFromDigits (ds : List Char) : String :=
  match tryParseYMD ds with
  | some (y, m, d) => toString y ++ "-" ++ pad2 (isoWeekNumber (y : Int) m d)
  | none => "2025-01"

/-- Embedding of JGBFParser.extract_date_from_filename: first matching
week pattern in the uppercased filename, else the first 8-digit run
parsed as a date, else the default "2025-01". -/
def extract_date_from_filename (filename : String) : Option String :=
  match week_mapping.find? (fun p => listContains (pyUpper filename).data p.1.data) with
  | some p => some p.2
  | none =>
    match findDigits8 filename.data with
    | some ds => some (dateFromDigits ds)
    | none => some "2025-01"

/-! ## Theorems

The claims C1-C10 about the embedded converters, with their supporting
lemmas, witnesses and counterexamples. -/

/-- C5 counterexample: the input "-" does not start with the marker "▲",
yet handle_negative_values does not return it unchanged (it returns ""),
so the claim that every non-marker value is returned unchanged is false. -/
theorem handle_negative_values_dash_cex :
    pyStartswith "-" "▲" = false ∧ handle_negative_values "-" ≠ "-" := by
  decide

/-- C5 (amended): handle_negative_values maps "" and "-" to "", and on any
other value first strips surrounding whitespace; if the stripped value
starts with the marker "▲" the marker is replaced by the numeric minus
sign, otherwise the stripped value is returned (so a value is returned
unchanged only up to whitespace stripping). -/
theorem handle_negative_values_amended :
    handle_negative_values "" = "" ∧
    handle_negative_values "-" = "" ∧
    (∀ v : String, v ≠ "" → v ≠ "-" → pyStartswith (pyStrip v) "▲" = true →
      handle_negative_values v = "-" ++ pySlice (pyStrip v) 1) ∧
    (∀ v : String, v ≠ "" → v ≠ "-" → pyStartswith (pyStrip v) "▲" = false →
      handle_negative_values v = pyStrip v) := by
  refine ⟨by decide, by decide, ?_, ?_⟩
  · intro v h1 h2 h3
    simp [handle_negative_values, h1, h2, h3]
  · intro v h1 h2 h3
    simp [handle_negative_values, h1, h2, h3]

/-- C5 witness: concrete instances of the amended claim: a marker value is
negated, and a padded plain value is returned stripped. -/
theorem handle_negative_values_amended_witness :
    handle_negative_values "▲5" = "-5" ∧ handle_negative_values " 7 " = "7" := by
  constructor
  · have h := handle_negative_values_amended.2.2.1 "▲5" (by decide) (by decide) (by decide)
    rw [h]; decide
  · have h := handle_negative_values_amended.2.2.2 " 7 " (by decide) (by decide) (by decide)
    rw [h]; decide

/-- C8: round-trip of the subtitle metadata: writing a sheet with
copy_table_to_sheet_with_enhanced_titles for a subtitle s (so A2 holds
"Subtitle: " + s) and reading its metadata cells back with
read_excel_sheet_meta returns exactly s in the subtitle field. -/
theorem subtitle_roundtrip (main_title s table_title : String)
    (grid : List (List String))
    (h : pyStartswith s "Subtitle: " = false) :
    (read_excel_sheet_meta
      (some (copy_table_to_sheet_with_enhanced_titles main_title s table_title grid).a1)
      (some (copy_table_to_sheet_with_enhanced_titles main_title s table_title grid).a2)
      (some (copy_table_to_sheet_with_enhanced_titles main_title s table_title grid).a3)).subtitle
      = s := by
  obtain ⟨d⟩ := s
  have hpre : pyStartswith ("Subtitle: " ++ ⟨d⟩) "Subtitle: " = true := by
    unfold pyStartswith
    rw [String.data_append]
    exact List.isPrefixOf_iff_prefix.mpr (List.prefix_append _ _)
  simp only [read_excel_sheet_meta, copy_table_to_sheet_with_enhanced_titles, hpre,
    Option.getD_some, if_true, pySlice]
  rw [String.data_append]
  rw [show (10 : Nat) = ("Subtitle: " : String).data.length from rfl, List.drop_left]

/-- C8 witness: the round-trip at a concrete subtitle from the reports. -/
theorem subtitle_roundtrip_witness :
    pyStartswith "JGB(10-year) Futures" "Subtitle: " = false ∧
    (read_excel_sheet_meta
      (some (copy_table_to_sheet_with_enhanced_titles "Trading by Type of Investors"
        "JGB(10-year) Futures" "Trading Value" []).a1)
      (some (copy_table_to_sheet_with_enhanced_titles "Trading by Type of Investors"
        "JGB(10-year) Futures" "Trading Value" []).a2)
      (some (copy_table_to_sheet_with_enhanced_titles "Trading by Type of Investors"
        "JGB(10-year) Futures" "Trading Value" []).a3)).subtitle
      = "JGB(10-year) Futures" :=
  ⟨by decide, subtitle_roundtrip "Trading by Type of Investors" "JGB(10-year) Futures"
    "Trading Value" [] (by decide)⟩

/-- Normal form of chunk_specs for a positive chunk size: the i-th chunk
covers [c * i, min (c * i + c, total)) and has sequence number i + 1. -/
theorem chunk_specs_eq (total c : Int) (ht : 0 ≤ total) (hc : 1 ≤ c) :
    chunk_specs total c =
      some ((List.range ((total + c - 1) / c).toNat).map (chunkOf total c)) := by
  have hc0 : c ≠ 0 := by omega
  have hfd : (total + c - 1).fdiv c = (total + c - 1) / c :=
    Int.fdiv_eq_ediv _ (by omega)
  simp only [chunk_specs, pyRangeZ, if_neg hc0, if_pos (by omega : 0 < c), hfd,
    Option.map_some', List.map_map]
  apply congrArg some
  apply List.map_congr_left
  intro i hi
  simp only [Function.comp_apply, chunkOf]
  have hnum : (c * (i : Int)).fdiv c = i := by
    rw [Int.fdiv_eq_ediv _ (by omega : (0:Int) ≤ c), Int.mul_ediv_cancel_left _ hc0]
  rw [hnum]

/-- Arithmetic facts about the chunk count ceil(total / c). -/
theorem chunk_count_facts (total c : Int) (ht : 0 ≤ total) (hc : 1 ≤ c) :
    0 ≤ (total + c - 1) / c ∧ total ≤ c * ((total + c - 1) / c) ∧
      ∀ i : Int, 0 ≤ i → i < (total + c - 1) / c → c * i < total := by
  have hrec := Int.ediv_add_emod (total + c - 1) c
  have hr0 : 0 ≤ (total + c - 1) % c := Int.emod_nonneg _ (by omega)
  have hrlt : (total + c - 1) % c < c := Int.emod_lt_of_pos _ (by omega)
  have hN0 : 0 ≤ (total + c - 1) / c := Int.ediv_nonneg (by omega) (by omega)
  refine ⟨hN0, by omega, ?_⟩
  intro i hi0 hiN
  have hmono : c * i ≤ c * ((total + c - 1) / c - 1) :=
    mul_le_mul_of_nonneg_left (by omega) (by omega)
  have hdist : c * ((total + c - 1) / c - 1) = c * ((total + c - 1) / c) - c := by ring
  omega

/-- Tiling properties of the closed-form chunk list, for any chunk count n
with total ≤ c * n and c * i < total for all i < n. -/
theorem tile_closed_form (total c : Int) (n : Nat) (hc : 1 ≤ c)
    (h1 : total ≤ c * n) (h2 : ∀ i : Nat, i < n → c * i < total) :
    ((List.range n).map (chunkOf total c)).Pairwise
        (fun p q => p.end_page ≤ q.start_page) ∧
    (∀ k : Int, (∃ p ∈ (List.range n).map (chunkOf total c),
        p.start_page ≤ k ∧ k < p.end_page) ↔ 0 ≤ k ∧ k < total) ∧
    (∀ p ∈ (List.range n).map (chunkOf total c),
        0 ≤ p.start_page ∧ p.start_page < p.end_page ∧ p.end_page ≤ total) ∧
    (0 < total → ((List.range n).map (chunkOf total c)).getLast?.map
        (fun p => p.end_page) = some total) ∧
    (total = 0 → (List.range n).map (chunkOf total c) = []) := by
  refine ⟨?_, ?_, ?_, ?_, ?_⟩
  · rw [List.pairwise_map]
    refine (List.pairwise_lt_range n).imp ?_
    intro i j hij
    dsimp only [chunkOf]
    have h1' : c * ((i : Int) + 1) ≤ c * (j : Int) :=
      mul_le_mul_of_nonneg_left (by exact_mod_cast hij) (by omega)
    have h2' : c * ((i : Int) + 1) = c * i + c := by ring
    calc min (c * (i : Int) + c) total ≤ c * (i : Int) + c := min_le_left _ _
      _ ≤ c * (j : Int) := by omega
  · intro k
    constructor
    · rintro ⟨p, hp, hk1, hk2⟩
      obtain ⟨i, hi, rfl⟩ := List.mem_map.mp hp
      have hi' : i < n := List.mem_range.mp hi
      dsimp only [chunkOf] at hk1 hk2
      have h0 : (0 : Int) ≤ c * i := mul_nonneg (by omega) (by positivity)
      have := min_le_right (c * (i : Int) + c) total
      omega
    · rintro ⟨hk0, hkt⟩
      have hkc := Int.ediv_add_emod k c
      have hkr0 : 0 ≤ k % c := Int.emod_nonneg _ (by omega)
      have hkrlt : k % c < c := Int.emod_lt_of_pos _ (by omega)
      have hq0 : 0 ≤ k / c := Int.ediv_nonneg (by omega) (by omega)
      have hlow : c * (k / c) ≤ k := by omega
      have hhigh : k < c * (k / c) + c := by omega
      have hqn : (k / c).toNat < n := by
        by_contra hcon
        push_neg at hcon
        have hle : c * (n : Int) ≤ c * (k / c) :=
          mul_le_mul_of_nonneg_left (by omega) (by omega)
        omega
      refine ⟨_, List.mem_map.mpr ⟨(k / c).toNat, List.mem_range.mpr hqn, rfl⟩, ?_, ?_⟩
      · dsimp only [chunkOf]
        rw [Int.toNat_of_nonneg hq0]
        exact hlow
      · dsimp only [chunkOf]
        rw [Int.toNat_of_nonneg hq0]
        exact lt_min (by omega) hkt
  · intro p hp
    obtain ⟨i, hi, rfl⟩ := List.mem_map.mp hp
    have hi' : i < n := List.mem_range.mp hi
    have h0 : (0 : Int) ≤ c * i := mul_nonneg (by omega) (by positivity)
    have hlt' : c * (i : Int) < total := h2 i hi'
    dsimp only [chunkOf]
    exact ⟨h0, lt_min (by omega) hlt', min_le_right _ _⟩
  · intro htpos
    have hnpos : n ≠ 0 := by
      rintro rfl
      norm_num at h1
      omega
    obtain ⟨m, rfl⟩ : ∃ m, n = m + 1 := ⟨n - 1, by omega⟩
    have hle : total ≤ c * (m : Int) + c := by
      have heq : c * (((m + 1 : Nat) : Int)) = c * m + c := by push_cast; ring
      omega
    rw [List.getLast?_map, List.getLast?_range]
    simp only [Nat.add_sub_cancel, Option.map_some', chunkOf, if_neg (Nat.succ_ne_zero m)]
    rw [min_eq_right hle]
  · intro h0
    subst h0
    have : n = 0 := by
      by_contra hn
      have := h2 0 (by omega)
      norm_num at this
    simp [this]

/-- C1 counterexample: for total_pages = 1 and chunk_size = -1 the loop
generates no interval at all (range(0, 1, -1) is empty), so page 0 of
[0, 1) is covered by no chunk and the intervals do not tile [0, 1);
the claim as stated over every chunk size fails for non-positive chunk
sizes. -/
theorem chunk_intervals_negative_size_cex :
    chunk_specs 1 (-1) = some [] ∧
    ¬ ∃ p ∈ ([] : List ChunkSpec), p.start_page ≤ 0 ∧ (0 : Int) < p.end_page := by
  decide

/-- C1 (amended to chunk sizes ≥ 1): for every total page count ≥ 0 and
every chunk size ≥ 1, the generated chunk intervals tile [0, total):
they are pairwise disjoint and in ascending order, each is non-empty,
starts at ≥ 0 and ends within total, their union is exactly [0, total),
the final chunk ends exactly at total when total > 0, and no chunk is
generated when total = 0. -/
theorem chunk_intervals_tile_amended (total c : Int) (ht : 0 ≤ total) (hc : 1 ≤ c) :
    ∃ l, chunk_specs total c = some l ∧
      l.Pairwise (fun p q : ChunkSpec => p.end_page ≤ q.start_page) ∧
      (∀ k : Int, (∃ p ∈ l, p.start_page ≤ k ∧ k < p.end_page) ↔ 0 ≤ k ∧ k < total) ∧
      (∀ p ∈ l, 0 ≤ p.start_page ∧ p.start_page < p.end_page ∧ p.end_page ≤ total) ∧
      (0 < total → l.getLast?.map (fun p => p.end_page) = some total) ∧
      (total = 0 → l = []) := by
  obtain ⟨hN0, hcN, hlt⟩ := chunk_count_facts total c ht hc
  have hcast : ((((total + c - 1) / c).toNat : Nat) : Int) = (total + c - 1) / c :=
    Int.toNat_of_nonneg hN0
  have h1 : total ≤ c * ((((total + c - 1) / c).toNat : Nat) : Int) := by
    rw [hcast]; exact hcN
  have h2 : ∀ i : Nat, i < ((total + c - 1) / c).toNat → c * (i : Int) < total := by
    intro i hi
    refine hlt i (by positivity) ?_
    calc (i : Int) < ((((total + c - 1) / c).toNat : Nat) : Int) := by exact_mod_cast hi
      _ = (total + c - 1) / c := hcast
  obtain ⟨hpair, hunion, hbound, hlast, hzero⟩ :=
    tile_closed_form total c (((total + c - 1) / c).toNat) hc h1 h2
  exact ⟨_, chunk_specs_eq total c ht hc, hpair, hunion, hbound, hlast, hzero⟩

/-- C1 witness: the amended tiling theorem applied at total_pages = 5 and
chunk_size = 2. -/
theorem chunk_intervals_tile_amended_witness :
    ∃ l, chunk_specs 5 2 = some l ∧
      l.Pairwise (fun p q : ChunkSpec => p.end_page ≤ q.start_page) ∧
      (∀ k : Int, (∃ p ∈ l, p.start_page ≤ k ∧ k < p.end_page) ↔ 0 ≤ k ∧ k < 5) ∧
      (∀ p ∈ l, 0 ≤ p.start_page ∧ p.start_page < p.end_page ∧ p.end_page ≤ 5) ∧
      ((0 : Int) < 5 → l.getLast?.map (fun p => p.end_page) = some 5) ∧
      ((5 : Int) = 0 → l = []) :=
  chunk_intervals_tile_amended 5 2 (by decide) (by decide)

/-- Reduction of combine_chunks on a non-empty list. -/
theorem combine_chunks_cons (copy_raises : Bool) (c0 : DocxDoc) (rest : List DocxDoc) :
    combine_chunks copy_raises (c0 :: rest) =
      if copy_raises then some c0 else some ⟨merged_body c0 rest⟩ := rfl

/-- Reduction of alternative_combine_chunks on a non-empty list. -/
theorem alternative_combine_chunks_cons (alt_raises : Bool) (c0 : DocxDoc)
    (rest : List DocxDoc) :
    alternative_combine_chunks alt_raises (c0 :: rest) =
      if alt_raises then some c0 else some ⟨alt_merged_body c0 rest⟩ := rfl

/-- Reduction of fixed_combine_chunks on a non-empty list. -/
theorem fixed_combine_chunks_cons (primary_raises : Bool) (reload_count : DocxDoc → Nat)
    (alt_raises : Bool) (c0 : DocxDoc) (rest : List DocxDoc) :
    fixed_combine_chunks primary_raises reload_count alt_raises (c0 :: rest) =
      if primary_raises then alternative_combine_chunks alt_raises (c0 :: rest)
      else if reload_count ⟨fixedMergeBody (c0 :: rest)⟩ =
          ((c0 :: rest).map docTableCount).sum then
        some ⟨fixedMergeBody (c0 :: rest)⟩
      else alternative_combine_chunks alt_raises (c0 :: rest) := rfl

/-- Page breaks contribute no table: table count of the appended chunk
bodies in the parallel combine. -/
theorem countP_break_flat (rest : List DocxDoc) :
    (rest.flatMap (fun ch => page_break :: ch.body)).countP isTbl =
      (rest.map docTableCount).sum := by
  induction rest with
  | nil => rfl
  | cons ch rest ih =>
    rw [List.flatMap_cons, List.countP_append, List.countP_cons, ih]
    simp only [page_break, isTbl, Bool.false_eq_true, if_false, List.map_cons,
      List.sum_cons, docTableCount]
    omega

/-- Table count of the parallel-combine body: the sum of the chunks'
table counts. -/
theorem countP_merged_body (c0 : DocxDoc) (rest : List DocxDoc) :
    (merged_body c0 rest).countP isTbl = ((c0 :: rest).map docTableCount).sum := by
  rw [merged_body, List.countP_append, countP_break_flat]
  simp only [List.map_cons, List.sum_cons, docTableCount]

/-- Table count of the fixed-combine body: the sum of the chunks' table
counts. -/
theorem countP_fixedMergeBody (chunks : List DocxDoc) :
    (fixedMergeBody chunks).countP isTbl = (chunks.map docTableCount).sum := by
  induction chunks with
  | nil => rfl
  | cons c rest ih =>
    cases rest with
    | nil => simp [fixedMergeBody, docTableCount]
    | cons c' rest' =>
      rw [fixedMergeBody, List.countP_append, List.countP_cons, ih]
      simp only [page_break, isTbl, Bool.false_eq_true, if_false, List.map_cons,
        List.sum_cons, docTableCount]
      omega

/-- C3: for every non-empty list of chunk documents, the merged document
produced by the chunk-combination routines (the parallel
combine_chunks and the sequential fixed_combine_chunks with a faithful
save/load round trip) contains exactly the sum of the per-chunk table
counts. -/
theorem merge_table_count_sum (c0 : DocxDoc) (rest : List DocxDoc) :
    (∃ m, combine_chunks false (c0 :: rest) = some m ∧
      docTableCount m = ((c0 :: rest).map docTableCount).sum) ∧
    (∃ m, fixed_combine_chunks false docTableCount false (c0 :: rest) = some m ∧
      docTableCount m = ((c0 :: rest).map docTableCount).sum) := by
  constructor
  · exact ⟨⟨merged_body c0 rest⟩, rfl, countP_merged_body c0 rest⟩
  · have hcnt : docTableCount ⟨fixedMergeBody (c0 :: rest)⟩ =
        ((c0 :: rest).map docTableCount).sum := countP_fixedMergeBody (c0 :: rest)
    refine ⟨⟨fixedMergeBody (c0 :: rest)⟩, ?_, hcnt⟩
    rw [fixed_combine_chunks_cons, if_neg (by decide), if_pos hcnt]

/-- C7: the merge fallback chain of the combination routines: if the
primary merge raises, or its table-count verification fails, the
alternative combination is used; if the alternative combination raises,
the first chunk's output is returned verbatim; and consequently both
combination routines return a non-None result on every non-empty chunk
list, whatever the oracles do. -/
theorem merge_fallback_nonnull (primary_raises : Bool) (reload_count : DocxDoc → Nat)
    (alt_raises : Bool) (c0 : DocxDoc) (rest : List DocxDoc) :
    (fixed_combine_chunks true reload_count alt_raises (c0 :: rest) =
      alternative_combine_chunks alt_raises (c0 :: rest)) ∧
    (reload_count ⟨fixedMergeBody (c0 :: rest)⟩ ≠ ((c0 :: rest).map docTableCount).sum →
      fixed_combine_chunks false reload_count alt_raises (c0 :: rest) =
        alternative_combine_chunks alt_raises (c0 :: rest)) ∧
    (alternative_combine_chunks true (c0 :: rest) = some c0) ∧
    (∃ d, fixed_combine_chunks primary_raises reload_count alt_raises (c0 :: rest) = some d) ∧
    (∃ d, combine_chunks primary_raises (c0 :: rest) = some d) := by
  have halt : ∃ d, alternative_combine_chunks alt_raises (c0 :: rest) = some d := by
    rw [alternative_combine_chunks_cons]
    cases alt_raises with
    | true => exact ⟨c0, rfl⟩
    | false => exact ⟨⟨alt_merged_body c0 rest⟩, rfl⟩
  refine ⟨rfl, ?_, rfl, ?_, ?_⟩
  · intro hne
    rw [fixed_combine_chunks_cons, if_neg (by decide), if_neg hne]
  · cases primary_raises with
    | true =>
      obtain ⟨d, hd⟩ := halt
      exact ⟨d, by rw [fixed_combine_chunks_cons, if_pos rfl]; exact hd⟩
    | false =>
      by_cases hv : reload_count ⟨fixedMergeBody (c0 :: rest)⟩ =
          ((c0 :: rest).map docTableCount).sum
      · refine ⟨⟨fixedMergeBody (c0 :: rest)⟩, ?_⟩
        rw [fixed_combine_chunks_cons, if_neg (by decide), if_pos hv]
      · obtain ⟨d, hd⟩ := halt
        refine ⟨d, ?_⟩
        rw [fixed_combine_chunks_cons, if_neg (by decide), if_neg hv]
        exact hd
  · rw [combine_chunks_cons]
    cases primary_raises with
    | true => exact ⟨c0, rfl⟩
    | false => exact ⟨⟨merged_body c0 rest⟩, rfl⟩

/-- C7 witness: the fallback chain at a concrete one-chunk input whose
reload oracle reports a wrong count and whose alternative path raises. -/
theorem merge_fallback_nonnull_witness :
    fixed_combine_chunks false (fun _ => 0) true [⟨[BodyElt.tbl [["x"]]]⟩] =
      alternative_combine_chunks true [⟨[BodyElt.tbl [["x"]]]⟩] ∧
    alternative_combine_chunks true [⟨[BodyElt.tbl [["x"]]]⟩] =
      some ⟨[BodyElt.tbl [["x"]]]⟩ :=
  ⟨(merge_fallback_nonnull false (fun _ => 0) true ⟨[BodyElt.tbl [["x"]]]⟩ []).2.1
      (by decide),
   (merge_fallback_nonnull false (fun _ => 0) true ⟨[BodyElt.tbl [["x"]]]⟩ []).2.2.1⟩

/-- C2: for every table index i of a document processed by
convert_docx_to_excel, a sheet for table i is produced, and every sheet
produced for table i carries page number i / 4 + 1 and the table category
at index i % 4 of the fixed length-4 table name array. -/
theorem table_classification_spec (filename : String) (doc : DocxDoc) (i : Nat)
    (h : i < (docTables doc).length) :
    ((convert_docx_to_excel filename doc).bind (fun sheets => sheets.get? i)).isSome
        = true ∧
    ∀ sheets s, convert_docx_to_excel filename doc = some sheets →
      sheets.get? i = some s →
      s.page_number = i / 4 + 1 ∧
      s.table_name = ["Table1_Main_Summary", "Table2_Brokerage_Breakdown",
        "Table3_Institutions_Breakdown", "Table4_Financial_Breakdown"].getD (i % 4) "" := by
  have hne : (docTables doc).length ≠ 0 := by omega
  have hget : (docTables doc)[i]? = some ((docTables doc).get ⟨i, h⟩) :=
    List.getElem?_eq_getElem h
  constructor
  · simp only [convert_docx_to_excel, if_neg hne, Option.some_bind]
    rw [List.get?_eq_getElem?, List.getElem?_map, List.getElem?_enum, hget]
    rfl
  · intro sheets s h1 h2
    unfold convert_docx_to_excel at h1
    rw [if_neg hne] at h1
    obtain rfl := Option.some.inj h1
    rw [List.get?_eq_getElem?, List.getElem?_map, List.getElem?_enum, hget] at h2
    obtain rfl := Option.some.inj h2.symm
    exact ⟨rfl, rfl⟩

/-- C2 witness: the classification theorem applied to a five-table
document at table index 4. -/
theorem table_classification_spec_witness :
    ((convert_docx_to_excel "report.docx"
        ⟨List.replicate 5 (BodyElt.tbl [["x"]])⟩).bind
      (fun sheets => sheets.get? 4)).isSome = true ∧
    ∀ sheets s,
      convert_docx_to_excel "report.docx"
        ⟨List.replicate 5 (BodyElt.tbl [["x"]])⟩ = some sheets →
      sheets.get? 4 = some s →
      s.page_number = 4 / 4 + 1 ∧
      s.table_name = ["Table1_Main_Summary", "Table2_Brokerage_Breakdown",
        "Table3_Institutions_Breakdown", "Table4_Financial_Breakdown"].getD (4 % 4) "" :=
  table_classification_spec "report.docx" ⟨List.replicate 5 (BodyElt.tbl [["x"]])⟩ 4
    (by decide)

/-- The worker preserves the chunk sequence number. -/
theorem worker_chunk_number (conv : ChunkSpec → Except String DocxDoc)
    (spec : ChunkSpec) :
    (convert_pdf_chunk_worker conv spec).chunk_number = spec.chunk_number := by
  cases h : conv spec <;> simp [convert_pdf_chunk_worker, h]

/-- A permutation of a list with strictly increasing keys that is itself
weakly sorted by the key is the original list. -/
theorem sorted_perm_eq_by_key {α : Type} (key : α → Int) :
    ∀ (l l' : List α), l'.Perm l → l.Pairwise (fun a b => key a < key b) →
      l'.Pairwise (fun a b => key a ≤ key b) → l' = l := by
  intro l
  induction l with
  | nil =>
    intro l' hp _ _
    exact hp.eq_nil
  | cons a t ih =>
    intro l' hp hs hs'
    cases l' with
    | nil =>
      have := hp.length_eq
      simp at this
    | cons b t' =>
      have hb : b = a := by
        by_contra hne
        have hbmem : b ∈ a :: t := hp.mem_iff.mp (List.mem_cons_self b t')
        have hamem : a ∈ b :: t' := hp.mem_iff.mpr (List.mem_cons_self a t)
        have hbt : b ∈ t := by
          rcases List.mem_cons.mp hbmem with h | h
          · exact absurd h hne
          · exact h
        have hat' : a ∈ t' := by
          rcases List.mem_cons.mp hamem with h | h
          · exact absurd h.symm hne
          · exact h
        have h1 : key a < key b := List.rel_of_pairwise_cons hs hbt
        have h2 : key b ≤ key a := List.rel_of_pairwise_cons hs' hat'
        omega
      subst hb
      rw [ih t' hp.cons_inv (List.Pairwise.of_cons hs) (List.Pairwise.of_cons hs')]

/-- sortResults sorts weakly by chunk number. -/
theorem sortResults_sorted (rs : List ChunkResult) :
    (sortResults rs).Pairwise (fun a b => a.chunk_number ≤ b.chunk_number) := by
  have htrans : ∀ a b c' : ChunkResult,
      (fun a b : ChunkResult => decide (a.chunk_number ≤ b.chunk_number)) a b = true →
      (fun a b : ChunkResult => decide (a.chunk_number ≤ b.chunk_number)) b c' = true →
      (fun a b : ChunkResult => decide (a.chunk_number ≤ b.chunk_number)) a c' = true := by
    intro a b c' hab hbc
    simp only [decide_eq_true_eq] at hab hbc ⊢
    omega
  have htotal : ∀ a b : ChunkResult,
      ((fun a b : ChunkResult => decide (a.chunk_number ≤ b.chunk_number)) a b ||
       (fun a b : ChunkResult => decide (a.chunk_number ≤ b.chunk_number)) b a) = true := by
    intro a b
    simp only [Bool.or_eq_true, decide_eq_true_eq]
    omega
  have h := @List.sorted_mergeSort ChunkResult
    (fun a b => decide (a.chunk_number ≤ b.chunk_number)) htrans htotal rs
  exact h.imp (fun hab => by simpa using hab)

/-- The chunk specs are strictly increasing in start page and in sequence
number. -/
theorem chunk_specs_pairwise (total c : Int) (specs : List ChunkSpec)
    (hspecs : chunk_specs total c = some specs) (ht : 0 ≤ total) (hc : 1 ≤ c) :
    specs.Pairwise
      (fun a b => a.start_page < b.start_page ∧ a.chunk_number < b.chunk_number) := by
  rw [chunk_specs_eq total c ht hc] at hspecs
  obtain rfl := Option.some.inj hspecs
  rw [List.pairwise_map]
  refine (List.pairwise_lt_range _).imp ?_
  intro i j hij
  refine ⟨mul_lt_mul_of_pos_left (by exact_mod_cast hij) (by omega), ?_⟩
  have : (i : Int) < j := by exact_mod_cast hij
  dsimp only [chunkOf]
  omega

/-- Sorting the filtered completion-order results by chunk number
recovers the successful results in original submission order. -/
theorem sorted_filter_canonical (specs : List ChunkSpec)
    (hpair : specs.Pairwise (fun a b => a.chunk_number < b.chunk_number))
    (conv : ChunkSpec → Except String DocxDoc) (completed : List ChunkResult)
    (hperm : completed.Perm (specs.map (convert_pdf_chunk_worker conv))) :
    sortResults (completed.filter (fun r => r.success)) =
      (specs.map (convert_pdf_chunk_worker conv)).filter (fun r => r.success) := by
  have htarget : ((specs.map (convert_pdf_chunk_worker conv)).filter
      (fun r => r.success)).Pairwise (fun a b => a.chunk_number < b.chunk_number) := by
    refine List.Pairwise.filter _ ?_
    rw [List.pairwise_map]
    refine hpair.imp ?_
    intro a b hab
    rw [worker_chunk_number, worker_chunk_number]
    exact hab
  have hperm3 : (sortResults (completed.filter (fun r => r.success))).Perm
      ((specs.map (convert_pdf_chunk_worker conv)).filter (fun r => r.success)) :=
    (List.mergeSort_perm _ _).trans (hperm.filter _)
  exact sorted_perm_eq_by_key (fun r => r.chunk_number) _ _ hperm3 htarget
    (sortResults_sorted _)

/-- C4: for chunk results completing in any order, the merge consumes the
successful chunks sorted by ascending chunk sequence number, the chunk
numbers (and start pages) are strictly increasing along the submission
order, and the sorted successful results coincide with the successful
results in submission order — independent of the completion order. -/
theorem reassembly_order_canonical (total c : Int) (specs : List ChunkSpec)
    (hspecs : chunk_specs total c = some specs) (ht : 0 ≤ total) (hc : 1 ≤ c)
    (conv : ChunkSpec → Except String DocxDoc) (completed : List ChunkResult)
    (hperm : completed.Perm (specs.map (convert_pdf_chunk_worker conv))) :
    specs.Pairwise
      (fun a b => a.start_page < b.start_page ∧ a.chunk_number < b.chunk_number) ∧
    sortResults (completed.filter (fun r => r.success)) =
      (specs.map (convert_pdf_chunk_worker conv)).filter (fun r => r.success) := by
  have hpair := chunk_specs_pairwise total c specs hspecs ht hc
  exact ⟨hpair, sorted_filter_canonical specs (hpair.imp (fun h => h.2)) conv
    completed hperm⟩

/-- C4 witness: the re-assembly theorem at total_pages = 2, chunk_size = 1
with the two workers completing in reversed order. -/
theorem reassembly_order_canonical_witness :
    ([⟨0, 1, 1⟩, ⟨1, 2, 2⟩] : List ChunkSpec).Pairwise
      (fun a b => a.start_page < b.start_page ∧ a.chunk_number < b.chunk_number) ∧
    sortResults
        (([convert_pdf_chunk_worker (fun _ => Except.ok ⟨[]⟩) ⟨1, 2, 2⟩,
           convert_pdf_chunk_worker (fun _ => Except.ok ⟨[]⟩) ⟨0, 1, 1⟩]).filter
          (fun r => r.success)) =
      (([⟨0, 1, 1⟩, ⟨1, 2, 2⟩] : List ChunkSpec).map
        (convert_pdf_chunk_worker (fun _ => Except.ok ⟨[]⟩))).filter
          (fun r => r.success) :=
  reassembly_order_canonical 2 1 [⟨0, 1, 1⟩, ⟨1, 2, 2⟩] (by decide) (by decide)
    (by decide) (fun _ => Except.ok ⟨[]⟩) _ (List.Perm.swap _ _ [])

/-- The successful workers' documents, in submission order, are exactly
the documents of the chunks whose conversion succeeded. -/
theorem filter_map_worker (conv : ChunkSpec → Except String DocxDoc)
    (specs : List ChunkSpec) :
    ((specs.map (convert_pdf_chunk_worker conv)).filter
        (fun r => r.success)).filterMap (fun r => r.doc) =
      specs.filterMap
        (fun s => match conv s with | .ok d => some d | .error _ => none) := by
  induction specs with
  | nil => rfl
  | cons s rest ih =>
    cases h : conv s with
    | ok d =>
      simp [convert_pdf_chunk_worker, h, List.filter_cons, List.filterMap_cons, ih]
    | error e =>
      simp [convert_pdf_chunk_worker, h, List.filter_cons, List.filterMap_cons, ih]

/-- C6 counterexample: in the sequential FixedChunkedConverter variant a
single failed chunk aborts the whole file: with two chunks of which the
second succeeds (its worker reports success), fixed_chunked_convert still
returns None instead of proceeding with the successful chunk. -/
theorem sequential_variant_aborts_cex :
    fixed_chunked_convert
        (fun s => if s.start_page = 0 then Except.error "boom" else Except.ok ⟨[]⟩)
        2 1 false (fun _ => 0) false = none ∧
    (convert_pdf_chunk_worker
        (fun s => if s.start_page = 0 then Except.error "boom" else Except.ok ⟨[]⟩)
        ⟨1, 2, 2⟩).success = true := by
  decide

/-- C6 (amended to the parallel variant): a chunk conversion that raises
is recorded as a failed result by its worker and excluded from the merge
(the merge consumes exactly the successfully converted documents, in
submission order), and whenever at least one chunk succeeded the parallel
pipeline still produces a merged output instead of aborting the file.
The sequential FixedChunkedConverter variant instead aborts on any chunk
failure. -/
theorem chunk_failure_policy_amended (total c : Int) (specs : List ChunkSpec)
    (hspecs : chunk_specs total c = some specs) (ht : 0 ≤ total) (hc : 1 ≤ c)
    (conv : ChunkSpec → Except String DocxDoc) (copy_raises : Bool)
    (completed : List ChunkResult)
    (hperm : completed.Perm (specs.map (convert_pdf_chunk_worker conv))) :
    (∀ s ∈ specs, ∀ e, conv s = .error e →
      (convert_pdf_chunk_worker conv s).success = false) ∧
    (∀ s ∈ specs, ∀ d, conv s = .ok d →
      (convert_pdf_chunk_worker conv s).success = true) ∧
    ((sortResults (completed.filter (fun r => r.success))).filterMap (fun r => r.doc) =
      specs.filterMap
        (fun s => match conv s with | .ok d => some d | .error _ => none)) ∧
    ((∃ s ∈ specs, ∃ d, conv s = .ok d) →
      ∃ out, parallel_chunked_convert_merge copy_raises completed = some out) := by
  have hpair := chunk_specs_pairwise total c specs hspecs ht hc
  have hcanon := sorted_filter_canonical specs (hpair.imp (fun h => h.2)) conv
    completed hperm
  have h3 : (sortResults (completed.filter (fun r => r.success))).filterMap
      (fun r => r.doc) =
      specs.filterMap
        (fun s => match conv s with | .ok d => some d | .error _ => none) := by
    rw [hcanon]
    exact filter_map_worker conv specs
  refine ⟨?_, ?_, h3, ?_⟩
  · intro s _ e he
    simp [convert_pdf_chunk_worker, he]
  · intro s _ d hd
    simp [convert_pdf_chunk_worker, hd]
  · rintro ⟨s, hs, d, hok⟩
    have hd : d ∈ specs.filterMap
        (fun s => match conv s with | .ok d => some d | .error _ => none) :=
      List.mem_filterMap.mpr ⟨s, hs, by rw [hok]⟩
    cases hlist : specs.filterMap
        (fun s => match conv s with | .ok d => some d | .error _ => none) with
    | nil =>
      rw [hlist] at hd
      simp at hd
    | cons y ys =>
      have hsne : sortResults (completed.filter (fun r => r.success)) ≠ [] := by
        intro h0
        rw [h0] at h3
        rw [hlist] at h3
        exact absurd h3 (by simp)
      unfold parallel_chunked_convert_merge
      rw [if_neg (by simpa [List.isEmpty_iff] using hsne)]
      rw [h3, hlist, combine_chunks_cons]
      cases copy_raises with
      | true => exact ⟨y, rfl⟩
      | false => exact ⟨⟨merged_body y ys⟩, rfl⟩

/-- C6 witness: the amended failure-policy theorem at total_pages = 2,
chunk_size = 1, where chunk 1 raises, chunk 2 succeeds, and the results
complete in reversed order. -/
theorem chunk_failure_policy_amended_witness :
    (∀ s ∈ ([⟨0, 1, 1⟩, ⟨1, 2, 2⟩] : List ChunkSpec), ∀ e, cexConv s = .error e →
      (convert_pdf_chunk_worker cexConv s).success = false) ∧
    (∀ s ∈ ([⟨0, 1, 1⟩, ⟨1, 2, 2⟩] : List ChunkSpec), ∀ d, cexConv s = .ok d →
      (convert_pdf_chunk_worker cexConv s).success = true) ∧
    ((sortResults
        (([convert_pdf_chunk_worker cexConv ⟨1, 2, 2⟩,
           convert_pdf_chunk_worker cexConv ⟨0, 1, 1⟩]).filter
          (fun r => r.success))).filterMap (fun r => r.doc) =
      ([⟨0, 1, 1⟩, ⟨1, 2, 2⟩] : List ChunkSpec).filterMap
        (fun s => match cexConv s with | .ok d => some d | .error _ => none)) ∧
    ((∃ s ∈ ([⟨0, 1, 1⟩, ⟨1, 2, 2⟩] : List ChunkSpec), ∃ d, cexConv s = .ok d) →
      ∃ out, parallel_chunked_convert_merge false
        [convert_pdf_chunk_worker cexConv ⟨1, 2, 2⟩,
         convert_pdf_chunk_worker cexConv ⟨0, 1, 1⟩] = some out) :=
  chunk_failure_policy_amended 2 1 [⟨0, 1, 1⟩, ⟨1, 2, 2⟩] (by decide) (by decide)
    (by decide) cexConv false _ (List.Perm.swap _ _ [])

/-- Lookup after a dict assignment: the assigned key maps to the new
value, other keys are unchanged. -/
theorem lookupDate_dictInsert (ps : List (String × String)) (k v d : String) :
    lookupDate (dictInsert ps k v) d = if k = d then some v else lookupDate ps d := by
  induction ps with
  | nil => rfl
  | cons p rest ih =>
    obtain ⟨k', v'⟩ := p
    by_cases hk : k' = k
    · subst hk
      by_cases hd : k' = d
      · subst hd
        simp [dictInsert, lookupDate]
      · simp [dictInsert, lookupDate, hd]
    · by_cases hd : k' = d
      · subst hd
        have hkd : ¬ k = k' := fun h => hk h.symm
        simp [dictInsert, lookupDate, hk, hkd]
      · simp [dictInsert, lookupDate, hk, hd, ih]

/-- Adding one data point overwrites exactly its own (code, date) slot. -/
theorem optValue_addItem (m : List (String × SeriesInfo)) (it : DataItem)
    (code date : String) :
    optValue (addItem m it) code date =
      if it.code = code ∧ it.date = date then some it.value
      else optValue m code date := by
  induction m with
  | nil =>
    by_cases hc : it.code = code
    · by_cases hd : it.date = date
      · simp [addItem, optValue, lookupCode, lookupDate, hc, hd]
      · simp [addItem, optValue, lookupCode, lookupDate, hc, hd]
    · simp [addItem, optValue, lookupCode, hc]
  | cons p rest ih =>
    obtain ⟨c, si⟩ := p
    by_cases hc : c = it.code
    · simp only [addItem, if_pos hc]
      by_cases hq : c = code
      · have hcq : it.code = code := by rw [← hc]; exact hq
        simp only [optValue, lookupCode, if_pos hq, Option.some_bind,
          lookupDate_dictInsert]
        by_cases hd : it.date = date
        · rw [if_pos hd, if_pos ⟨hcq, hd⟩]
        · rw [if_neg hd, if_neg (fun hh : _ ∧ _ => hd hh.2)]
      · have hcq : ¬ it.code = code := by rw [← hc]; exact hq
        simp only [optValue, lookupCode, if_neg hq]
        rw [if_neg (fun hh : _ ∧ _ => hcq hh.1)]
    · simp only [addItem, if_neg hc]
      by_cases hq : c = code
      · have hne : ¬ (it.code = code ∧ it.date = date) := by
          intro hh
          exact hc (by rw [hq, ← hh.1])
        simp only [optValue, lookupCode, if_pos hq, Option.some_bind, if_neg hne]
      · simp only [optValue, lookupCode, if_neg hq]
        have hih := ih
        simp only [optValue] at hih
        exact hih

/-- Folding the grouping step over a data list: the stored value for a
(code, date) pair is the last matching data point's value, falling back
to the initial accumulator. -/
theorem optValue_foldl (l : List DataItem) :
    ∀ (m : List (String × SeriesInfo)) (code date : String),
      optValue (l.foldl addItem m) code date =
        ((l.reverse.find? (fun it => it.code == code && it.date == date)).map
          (fun it => it.value)).or (optValue m code date) := by
  induction l with
  | nil =>
    intro m code date
    simp
  | cons it l ih =>
    intro m code date
    rw [List.foldl_cons, ih, List.reverse_cons, List.find?_append]
    rw [optValue_addItem]
    by_cases hp : it.code = code ∧ it.date = date
    · have hb : (fun it : DataItem => it.code == code && it.date == date) it = true := by
        simp [hp.1, hp.2]
      rw [if_pos hp]
      have hfind : List.find? (fun it : DataItem => it.code == code && it.date == date)
          [it] = some it := by
        simp [List.find?_cons, hb]
      rw [hfind]
      cases hA : List.find? (fun it : DataItem => it.code == code && it.date == date)
          l.reverse with
      | none => simp
      | some a => simp
    · have hb : (fun it : DataItem => it.code == code && it.date == date) it = false := by
        by_cases h1 : it.code = code
        · by_cases h2 : it.date = date
          · exact absurd ⟨h1, h2⟩ hp
          · simp [h2]
        · simp [h1]
      rw [if_neg hp]
      have hfind : List.find? (fun it : DataItem => it.code == code && it.date == date)
          [it] = none := by
        simp [List.find?_cons, hb]
      rw [hfind, Option.or_none]

/-- The cell written for (code, date) is the last matching data point's
value, or "" when no data point matches. -/
theorem cellValue_lastValue (l : List DataItem) (code date : String) :
    cellValue (buildTimeSeries l) code date = lastValue l code date := by
  have h1 : cellValue (buildTimeSeries l) code date =
      (optValue (buildTimeSeries l) code date).getD "" := by
    unfold cellValue optValue
    cases lookupCode (buildTimeSeries l) code with
    | none => rfl
    | some si => rfl
  rw [h1]
  unfold buildTimeSeries
  rw [optValue_foldl l [] code date]
  simp only [optValue, lookupCode, Option.none_bind, Option.or_none]
  rfl

/-- Keys after a dict assignment: the old keys plus the assigned key. -/
theorem mem_keys_dictInsert (ps : List (String × String)) (k v d : String) :
    (d ∈ (dictInsert ps k v).map (fun q => q.1)) ↔ d ∈ ps.map (fun q => q.1) ∨ d = k := by
  induction ps with
  | nil => simp [dictInsert]
  | cons p rest ih =>
    obtain ⟨k', v'⟩ := p
    by_cases hk : k' = k
    · subst hk
      have hx : dictInsert ((k', v') :: rest) k' v = (k', v) :: rest := by
        simp [dictInsert]
      rw [hx]
      simp only [List.map_cons, List.mem_cons]
      tauto
    · have hx : dictInsert ((k', v') :: rest) k v = (k', v') :: dictInsert rest k v := by
        simp [dictInsert, hk]
      rw [hx]
      simp only [List.map_cons, List.mem_cons, ih]
      tauto

/-- Adding one data point adds exactly its date to the date set. -/
theorem mem_seriesDates_addItem (m : List (String × SeriesInfo)) (it : DataItem)
    (d : String) :
    d ∈ seriesDates (addItem m it) ↔ d ∈ seriesDates m ∨ d = it.date := by
  induction m with
  | nil => simp [addItem, seriesDates]
  | cons p rest ih =>
    obtain ⟨c, si⟩ := p
    by_cases hc : c = it.code
    · simp only [addItem, if_pos hc, seriesDates, List.map_cons, List.flatten_cons,
        List.mem_append]
      rw [mem_keys_dictInsert]
      tauto
    · simp only [addItem, if_neg hc, seriesDates, List.map_cons, List.flatten_cons,
        List.mem_append]
      simp only [seriesDates] at ih
      rw [ih]
      tauto

/-- The dates of the grouped series are the dates of the data points
(plus those of the initial accumulator). -/
theorem mem_seriesDates_foldl (l : List DataItem) :
    ∀ (m : List (String × SeriesInfo)) (d : String),
      d ∈ seriesDates (l.foldl addItem m) ↔
        d ∈ seriesDates m ∨ ∃ it ∈ l, it.date = d := by
  induction l with
  | nil =>
    intro m d
    simp
  | cons it l ih =>
    intro m d
    rw [List.foldl_cons, ih, mem_seriesDates_addItem]
    constructor
    · rintro ((h | h) | h)
      · exact Or.inl h
      · exact Or.inr ⟨it, by simp, h.symm⟩
      · obtain ⟨x, hx, hxd⟩ := h
        exact Or.inr ⟨x, by simp [hx], hxd⟩
    · rintro (h | ⟨x, hx, hxd⟩)
      · exact Or.inl (Or.inl h)
      · rcases List.mem_cons.mp hx with rfl | hx'
        · exact Or.inl (Or.inr hxd.symm)
        · exact Or.inr ⟨x, hx', hxd⟩

/-- Membership in the sorted date list is membership in the date set. -/
theorem mem_sortedDatesOf (m : List (String × SeriesInfo)) (d : String) :
    d ∈ sortedDatesOf m ↔ d ∈ seriesDates m := by
  unfold sortedDatesOf
  rw [(List.mergeSort_perm _ _).mem_iff, List.mem_dedup]

/-- The sorted date list is strictly increasing (distinct dates in
ascending lexicographic order). -/
theorem sortedDatesOf_sorted (m : List (String × SeriesInfo)) :
    (sortedDatesOf m).Pairwise (fun a b : String => a < b) := by
  have htrans : ∀ a b c' : String,
      (fun a b : String => decide (a ≤ b)) a b = true →
      (fun a b : String => decide (a ≤ b)) b c' = true →
      (fun a b : String => decide (a ≤ b)) a c' = true := by
    intro a b c' hab hbc
    simp only [decide_eq_true_eq] at hab hbc ⊢
    exact le_trans hab hbc
  have htotal : ∀ a b : String,
      ((fun a b : String => decide (a ≤ b)) a b ||
       (fun a b : String => decide (a ≤ b)) b a) = true := by
    intro a b
    simp only [Bool.or_eq_true, decide_eq_true_eq]
    exact le_total a b
  have hs : (sortedDatesOf m).Pairwise (fun a b : String => a ≤ b) :=
    (@List.sorted_mergeSort String (fun a b => decide (a ≤ b)) htrans htotal
      (seriesDates m).dedup).imp (fun hab => by simpa using hab)
  have hnodup : (sortedDatesOf m).Nodup :=
    (List.mergeSort_perm _ _).nodup_iff.mpr (List.nodup_dedup _)
  exact (hs.and hnodup).imp (fun hab => lt_of_le_of_ne hab.1 hab.2)

/-- C9: for every non-empty data list, generate_output_file produces an
output whose data rows are exactly one per distinct date value, ordered
by strictly ascending lexicographic date starting at spreadsheet row 3,
with one column per template code in fixed template order; each cell
holds the value of the last data point in input order with that
(code, date), so a later point overwrites an earlier one sharing its
key. -/
theorem generate_output_file_spec (all_data : List DataItem) (h : all_data ≠ []) :
    (generate_output_file all_data).isSome = true ∧
    ∀ out, generate_output_file all_data = some out →
      out.header_codes = get_template_columns.map (fun col => col.1) ∧
      (out.rows.map (fun r => r.2.1)).Pairwise (fun a b => a < b) ∧
      (∀ d : String, (d ∈ out.rows.map (fun r => r.2.1)) ↔ ∃ it ∈ all_data, it.date = d) ∧
      out.rows.map (fun r => r.1) = List.range' 3 out.rows.length ∧
      (∀ r ∈ out.rows, r.2.2 =
        get_template_columns.map (fun col => lastValue all_data col.1 r.2.1)) := by
  have hne : all_data.isEmpty ≠ true := by
    simp [List.isEmpty_iff, h]
  constructor
  · unfold generate_output_file
    rw [if_neg hne]
    rfl
  · intro out hout
    unfold generate_output_file at hout
    rw [if_neg hne] at hout
    obtain rfl := Option.some.inj hout
    have hdates : ((List.enumFrom 3 (sortedDatesOf (buildTimeSeries all_data))).map
        (fun rd => (rd.1, rd.2,
          get_template_columns.map
            (fun col => cellValue (buildTimeSeries all_data) col.1 rd.2)))).map
          (fun r => r.2.1) = sortedDatesOf (buildTimeSeries all_data) := by
      rw [List.map_map]
      exact List.enumFrom_map_snd 3 _
    refine ⟨rfl, ?_, ?_, ?_, ?_⟩
    · rw [hdates]
      exact sortedDatesOf_sorted _
    · intro d
      rw [hdates, mem_sortedDatesOf]
      unfold buildTimeSeries
      rw [mem_seriesDates_foldl all_data [] d]
      simp [seriesDates]
    · rw [List.map_map]
      have hlen : ((List.enumFrom 3 (sortedDatesOf (buildTimeSeries all_data))).map
          (fun rd => (rd.1, rd.2,
            get_template_columns.map
              (fun col => cellValue (buildTimeSeries all_data) col.1 rd.2)))).length =
          (sortedDatesOf (buildTimeSeries all_data)).length := by
        simp
      rw [hlen]
      exact List.enumFrom_map_fst 3 _
    · intro r hr
      obtain ⟨rd, hrd, rfl⟩ := List.mem_map.mp hr
      dsimp only
      refine List.map_congr_left ?_
      intro col _
      exact cellValue_lastValue all_data col.1 rd.2

/-- C9 witness: the output-generation theorem applied to a one-item data
list. -/
theorem generate_output_file_spec_witness :
    (generate_output_file [⟨"C", "D", "2025-37", "5"⟩]).isSome = true ∧
    ∀ out, generate_output_file [⟨"C", "D", "2025-37", "5"⟩] = some out →
      out.header_codes = get_template_columns.map (fun col => col.1) ∧
      (out.rows.map (fun r => r.2.1)).Pairwise (fun a b => a < b) ∧
      (∀ d : String, (d ∈ out.rows.map (fun r => r.2.1)) ↔
        ∃ it ∈ [(⟨"C", "D", "2025-37", "5"⟩ : DataItem)], it.date = d) ∧
      out.rows.map (fun r => r.1) = List.range' 3 out.rows.length ∧
      (∀ r ∈ out.rows, r.2.2 =
        get_template_columns.map
          (fun col => lastValue [⟨"C", "D", "2025-37", "5"⟩] col.1 r.2.1)) :=
  generate_output_file_spec [⟨"C", "D", "2025-37", "5"⟩] (by decide)

/-- Sanity checks of the calendar model against CPython isocalendar
values, including year-boundary and long-year cases, and of the week
patterns. -/
theorem extract_date_model_checks :
    extract_date_from_filename "report_20250615.pdf" = some "2025-24" ∧
    extract_date_from_filename "x20250101.pdf" = some "2025-01" ∧
    extract_date_from_filename "x20241230.pdf" = some "2024-01" ∧
    extract_date_from_filename "x20231231.pdf" = some "2023-52" ∧
    extract_date_from_filename "x20210103.pdf" = some "2021-53" ∧
    extract_date_from_filename "x20250229.pdf" = some "2025-01" ∧
    extract_date_from_filename "MARCH WEEK 2 report.pdf" = some "2025-10" ∧
    extract_date_from_filename "march week 3.pdf" = some "2025-11" := by
  refine ⟨by decide, by decide, by decide, by decide, by decide, by decide,
    by decide, by decide⟩

/-- C10: extract_date_from_filename is total: it returns a date string on
every filename, and when no week pattern occurs in the uppercased
filename and no 8-digit run parses as a valid date it returns the default
"2025-01", so no file is skipped for lack of a recognizable date. -/
theorem extract_date_total_default :
    (∀ f : String, (extract_date_from_filename f).isSome = true) ∧
    (∀ f : String,
      week_mapping.find? (fun p => listContains (pyUpper f).data p.1.data) = none →
      (findDigits8 f.data).bind tryParseYMD = none →
      extract_date_from_filename f = some "2025-01") := by
  constructor
  · intro f
    unfold extract_date_from_filename
    cases week_mapping.find? (fun p => listContains (pyUpper f).data p.1.data) with
    | some p => rfl
    | none =>
      cases findDigits8 f.data with
      | none => rfl
      | some ds => rfl
  · intro f h1 h2
    unfold extract_date_from_filename
    rw [h1]
    show (match findDigits8 f.data with
      | some ds => some (dateFromDigits ds)
      | none => some "2025-01") = some "2025-01"
    cases hds : findDigits8 f.data with
    | none => rfl
    | some ds =>
      rw [hds] at h2
      simp only [Option.some_bind] at h2
      show some (dateFromDigits ds) = some "2025-01"
      unfold dateFromDigits
      rw [h2]

/-- C10 witness: the totality and default theorem at a filename with
neither a week pattern nor an 8-digit date. -/
theorem extract_date_total_default_witness :
    (extract_date_from_filename "report.pdf").isSome = true ∧
    extract_date_from_filename "report.pdf" = some "2025-01" :=
  ⟨extract_date_total_default.1 "report.pdf",
   extract_date_total_default.2 "report.pdf" (by decide) (by decide)⟩
